import Mathlib

/-!
# Verification of the `RingManager` core (package-ableton-js)

Shallow embedding of `src/ring-manager.js` / `src/ring-manager.ts` and
`src/subscription-group.ts`: the session-ring subscription engine that
mirrors a sliding window of DAW tracks to a hardware surface.

Modelling conventions:
* JS numbers used as values (volume, panning, parameter values) are `ℚ`;
  numbers used as indices and offsets are `Int` (so out-of-range and
  negative indices behave as in the source).
* A JS division whose result may be `NaN` is `jsDiv : ℚ → ℚ → Option ℚ`
  (`none` = NaN); the `nv` field of `RT_PARAM` events is `Option ℚ`.
* The fallible RPC boundary (`get`, `addListener`) is driven by an
  environment `Env` listing the calls that reject; code with no
  `try`/`catch` propagates the failure as an `ok = false` result, with the
  state mutations performed before the failure kept.
* `Map` objects are association lists (`mget`/`mset`/`mdel`); the
  `SubscriptionGroup` is modelled by its set of keys (`addKey`,
  `removeByPref` mirroring `add`/`removeByPrefix` of
  `subscription-group.ts`).
-/

namespace AbletonRing

/-- JS `Math.max(lo, Math.min(hi, x))` on rationals. -/
def clampQ (lo hi x : ℚ) : ℚ := max lo (min hi x)

/-- JS division; `none` models the NaN produced by `x / 0`. -/
def jsDiv (a b : ℚ) : Option ℚ := if b = 0 then none else some (a / b)

/-- `String.startsWith`, modelled over the character list so that it
evaluates inside the kernel. -/
def strStartsWith (str pre : String) : Bool := pre.data.isPrefixOf str.data

/-- `String.slice(n)` / `String.drop`, modelled over the character list. -/
def strDrop (str : String) (n : Nat) : String := String.mk (str.data.drop n)

/-- Value of a decimal digit run (used by `parseIntJS`). -/
def digitsToNat (cs : List Char) : Nat :=
  cs.foldl (fun n c => n * 10 + (c.toNat - 48)) 0

/-- JS `parseInt(str, 10)`: skip leading whitespace, optional sign, then a
decimal digit run; `none` models NaN. -/
def parseIntJS (str : String) : Option Int :=
  let cs := str.data.dropWhile (fun c => c = ' ' ∨ c = '\t' ∨ c = '\n' ∨ c = '\r')
  match cs with
  | '-' :: rest =>
      let ds := rest.takeWhile Char.isDigit
      if ds.isEmpty then none else some (-(digitsToNat ds : Int))
  | '+' :: rest =>
      let ds := rest.takeWhile Char.isDigit
      if ds.isEmpty then none else some (digitsToNat ds : Int)
  | _ =>
      let ds := cs.takeWhile Char.isDigit
      if ds.isEmpty then none else some (digitsToNat ds : Int)

/-- JS `Array.prototype.slice(start, stop)` with possibly negative bounds. -/
def jsSlice {α : Type} (l : List α) (start stop : Int) : List α :=
  let n : Int := l.length
  let s : Int := if start < 0 then max (n + start) 0 else min start n
  let e : Int := if stop < 0 then max (n + stop) 0 else min stop n
  (l.drop s.toNat).take (e - s).toNat

/-- JS indexing `l[i]` for an `Int` index: `none` models `undefined`. -/
def jsIdx {α : Type} (l : List α) (i : Int) : Option α :=
  if 0 ≤ i then l.get? i.toNat else none

/-- JS indexing into a number array, reading `undefined` as `0`.  Only used
where the source subsequently drops the value for out-of-range indices, so
the placeholder is unobservable. -/
def jsIdxQ (l : List ℚ) (i : Int) : ℚ := ((jsIdx l i).getD 0)

/-- `hexToRgb` of `ring-manager.js`: `0xRRGGBB` integer to an RGB triple. -/
def hexToRgb (hex : Nat) : Nat × Nat × Nat :=
  ((hex / 65536) % 256, (hex / 256) % 256, hex % 256)

/-! ## Map and subscription-group models -/

/-- `Map.get`. -/
def mget {α : Type} : List (String × α) → String → Option α
  | [], _ => none
  | p :: rest, k => if p.1 = k then some p.2 else mget rest k

/-- `Map.delete` (all entries with the key removed). -/
def mdel {α : Type} : List (String × α) → String → List (String × α)
  | [], _ => []
  | p :: rest, k => if p.1 = k then mdel rest k else p :: mdel rest k

/-- `Map.set`.  Only lookup semantics matter to the claims, so the entry
is re-inserted at the front. -/
def mset {α : Type} (m : List (String × α)) (k : String) (v : α) :
    List (String × α) :=
  (k, v) :: mdel m k

/-- `SubscriptionGroup.add` restricted to its key set: re-adding an existing
key first unsubscribes the old thunk, leaving the key present either way. -/
def addKey (ks : List String) (k : String) : List String :=
  if k ∈ ks then ks else ks ++ [k]

/-- `SubscriptionGroup.removeByPrefix` restricted to the key set. -/
def removeByPref (ks : List String) (pre : String) : List String :=
  ks.filter (fun k => ¬ strStartsWith k pre)

/-! ## Data model -/

/-- A remote DAW track as seen through the RPC handle: `raw.id`,
`raw.color`, and the property values that `get` calls return. -/
structure TrackData where
  id : String
  rawColor : Nat
  name : String
  mute : Bool
  solo : Bool
  canBeArmed : Bool
  arm : Bool
  hasMidiInput : Bool
  hasAudioInput : Bool
  volume : ℚ
  panning : ℚ
  sends : List ℚ
  deriving DecidableEq, Repr

/-- A remote `DeviceParameter` handle cached by the core.  `volume`,
`panning` and `send` come from a track's mixer device; `selParam` is the
parameter selected in the DAW UI. -/
inductive ParamRef where
  | volume (trackId : String)
  | panning (trackId : String)
  | send (trackId : String) (si : Nat)
  | selParam (pid : Nat)
  deriving DecidableEq, Repr

/-- The selected `DeviceParameter` with the values its five `get`s return. -/
structure ParamData where
  pid : Nat
  name : String
  value : ℚ
  pmin : ℚ
  pmax : ℚ
  defaultValue : ℚ
  deriving DecidableEq, Repr

/-- `RingTrackState` of `ring-manager.ts`. -/
structure TrackState where
  id : String
  ringIndex : Int
  name : String
  color : Nat × Nat × Nat
  isMidi : Bool
  mute : Bool
  solo : Bool
  arm : Bool
  canBeArmed : Bool
  volume : ℚ
  panning : ℚ
  sends : List ℚ
  deriving DecidableEq, Repr

/-- `MixerDeviceCache`: cached `DeviceParameter` handles (`volume` and
`panning` are `null` for MIDI tracks). -/
structure MixerDeviceCache where
  volume : Option ParamRef
  panning : Option ParamRef
  sends : List ParamRef
  deriving DecidableEq, Repr

/-- Outbound events through the `sendMessage` sink.  `rtParam`'s `nv` is
`Option ℚ` because the source computes it with a guarded division. -/
inductive Msg where
  | rtMute (i : Int) (v : Bool)
  | rtSolo (i : Int) (v : Bool)
  | rtArm (i : Int) (v : Bool)
  | rtVol (i : Int) (v nv : ℚ)
  | rtPan (i : Int) (v nv : ℚ)
  | rtSend (i si : Int) (v nv : ℚ)
  | rtInfo (i : Int) (name : String) (color : Nat × Nat × Nat) (isMidi : Bool)
  | rtSelected (index ringIndex : Int) (name : String) (color : Nat × Nat × Nat)
  | rtPlayingClip (name : String) (color : Nat × Nat × Nat)
  | rtParam (name : String) (v : ℚ) (nv : Option ℚ) (pmin pmax : ℚ)
  | rtTransport (playing recording : Bool)
  deriving DecidableEq, Repr

/-- Writes issued against the DAW (fire-and-forget `set` calls and session
box configuration). -/
inductive Eff where
  | setTrackProp (trackId : String) (prop : String) (b : Bool)
  | setParamValue (p : ParamRef) (v : ℚ)
  | setSelectedTrack (trackId : String)
  | setSessionOffset (t s : Int)
  | setupSessionBox (w h : Int)
  deriving DecidableEq, Repr

/-- The `RingManager` instance state (the fields of the class). -/
structure RM where
  currentRingTrackIds : List String
  ringIndexByTrackId : List (String × Int)
  trackStates : List (String × TrackState)
  mixerCache : List (String × MixerDeviceCache)
  ringSubKeys : List String
  globalSubKeys : List String
  ringWidth : Int
  ringScenes : Int
  trackOffset : Int
  sceneOffset : Int
  masterTrackId : Option String
  allTracks : List TrackData
  activeProperty : String
  isPlaying : Bool
  isRecording : Bool
  selectedTrackName : String
  selectedTrackColor : Nat × Nat × Nat
  selectedTrackIndex : Int
  playingClipName : String
  playingClipColor : Nat × Nat × Nat
  selectedParam : Option ParamData
  selectedParamName : String
  selectedParamValue : ℚ
  selectedParamMin : ℚ
  selectedParamMax : ℚ
  selectedParamDefault : ℚ
  selectedParamSwitching : Bool
  deriving DecidableEq, Repr

/-- The DAW side of the RPC boundary: the visible-track list, the selected
track, and which RPC calls reject.  `failTokens` lists failing calls as
`"{trackId}:get:{prop}"` / `"{trackId}:listen:{prop}"` strings;
`selParamFetchFails` makes the five-way parameter fetch reject;
`selTrackGetFails` makes `song.view.get("selected_track")` reject. -/
structure Env where
  visibleTracks : List TrackData
  failTokens : List String
  selParamFetchFails : Bool
  selectedTrack : Option TrackData
  selTrackGetFails : Bool
  deriving DecidableEq, Repr

/-- Whether an RPC call succeeds in environment `env`. -/
def rpcOk (env : Env) (token : String) : Bool := ¬ token ∈ env.failTokens

/-! ## Ring-relative track actions (`ring-manager.js` 249–349) -/

/-- `RingManager.isMaster`. -/
def isMaster (s : RM) (t : TrackData) : Bool := s.masterTrackId = some t.id

/-- `RingManager.getTrackAtRingIndex`: `allTracks[trackOffset + ringIndex]`. -/
def getTrackAtRingIndex (s : RM) (ringIndex : Int) : Option TrackData :=
  jsIdx s.allTracks (s.trackOffset + ringIndex)

/-- `RingManager.toggleMute`. -/
def toggleMute (s : RM) (ringIndex : Int) : List Eff :=
  match getTrackAtRingIndex s ringIndex with
  | none => []
  | some t =>
    if isMaster s t then [] else
    match mget s.trackStates t.id with
    | none => []
    | some st => [Eff.setTrackProp t.id "mute" (!st.mute)]

/-- `RingManager.toggleSolo`. -/
def toggleSolo (s : RM) (ringIndex : Int) : List Eff :=
  match getTrackAtRingIndex s ringIndex with
  | none => []
  | some t =>
    if isMaster s t then [] else
    match mget s.trackStates t.id with
    | none => []
    | some st => [Eff.setTrackProp t.id "solo" (!st.solo)]

/-- `RingManager.toggleArm`. -/
def toggleArm (s : RM) (ringIndex : Int) : List Eff :=
  match getTrackAtRingIndex s ringIndex with
  | none => []
  | some t =>
    match mget s.trackStates t.id with
    | none => []
    | some st => if !st.canBeArmed then [] else [Eff.setTrackProp t.id "arm" (!st.arm)]

/-- `RingManager.setVolume`.  `state?.isMidi` is truthy only when a cached
state exists and is MIDI. -/
def setVolume (s : RM) (ringIndex : Int) (value : ℚ) : List Eff :=
  match getTrackAtRingIndex s ringIndex with
  | none => []
  | some t =>
    let midiBlocked := match mget s.trackStates t.id with
      | some st => st.isMidi
      | none => false
    if midiBlocked then [] else
    match mget s.mixerCache t.id with
    | none => []
    | some mc =>
      match mc.volume with
      | some p => [Eff.setParamValue p value]
      | none => []

/-- `RingManager.setPanning`. -/
def setPanning (s : RM) (ringIndex : Int) (value : ℚ) : List Eff :=
  match getTrackAtRingIndex s ringIndex with
  | none => []
  | some t =>
    let midiBlocked := match mget s.trackStates t.id with
      | some st => st.isMidi
      | none => false
    if midiBlocked then [] else
    match mget s.mixerCache t.id with
    | none => []
    | some mc =>
      match mc.panning with
      | some p => [Eff.setParamValue p value]
      | none => []

/-- `RingManager.setSend`: drops the write when `cached.sends[sendIndex]`
is undefined (out-of-range or negative index). -/
def setSend (s : RM) (ringIndex sendIndex : Int) (value : ℚ) : List Eff :=
  match getTrackAtRingIndex s ringIndex with
  | none => []
  | some t =>
    match mget s.mixerCache t.id with
    | none => []
    | some mc =>
      match jsIdx mc.sends sendIndex with
      | none => []
      | some p => [Eff.setParamValue p value]

/-- `RingManager.selectTrackInRing`: selects whatever track sits at
`allTracks[trackOffset + ringIndex]`, with no ring-residency check. -/
def selectTrackInRing (s : RM) (ringIndex : Int) : List Eff :=
  match getTrackAtRingIndex s ringIndex with
  | none => []
  | some t => [Eff.setSelectedTrack t.id]

/-! ## Active-property mode (`ring-manager.js` 350–514, 599–662) -/

/-- Loop body of `sendActivePropertyState` over `currentRingTrackIds`. -/
def apsGo (s : RM) : List String → List Msg
  | [] => []
  | id :: rest =>
    (match mget s.trackStates id with
     | none => []
     | some st =>
       let i := (mget s.ringIndexByTrackId id).getD 0
       if s.activeProperty = "volume" ∧ ¬ st.isMidi then
         [Msg.rtVol i st.volume st.volume]
       else if s.activeProperty = "panning" ∧ ¬ st.isMidi then
         [Msg.rtPan i st.panning ((st.panning + 1) / 2)]
       else if strStartsWith s.activeProperty "send:" then
         match parseIntJS (strDrop s.activeProperty 5) with
         | some si =>
           if si < (st.sends.length : Int) then
             [Msg.rtSend i si (jsIdxQ st.sends si) (jsIdxQ st.sends si)]
           else []
         | none => []
       else []) ++ apsGo s rest

/-- `RingManager.sendActivePropertyState`. -/
def sendActivePropertyState (s : RM) : List Msg :=
  if s.activeProperty = "selected_parameter" then
    match s.selectedParam with
    | some _ =>
      let range := s.selectedParamMax - s.selectedParamMin
      [Msg.rtParam s.selectedParamName s.selectedParamValue
        (if range ≠ 0 then jsDiv (s.selectedParamValue - s.selectedParamMin) range
         else some 0)
        s.selectedParamMin s.selectedParamMax]
    | none => [Msg.rtParam "" 0 (some 0) 0 1]
  else apsGo s s.currentRingTrackIds

/-- `RingManager.setActiveProperty`. -/
def setActiveProperty (s : RM) (property : String) : RM × List Msg :=
  let s1 := { s with activeProperty := property }
  (s1, sendActivePropertyState s1)

/-- `RingManager.adjustSelectedParameter`. -/
def adjustSelectedParameter (s : RM) (delta stepSize : ℚ) : List Eff :=
  match s.selectedParam with
  | none => []
  | some pd =>
    if s.selectedParamSwitching then [] else
    let range := s.selectedParamMax - s.selectedParamMin
    if range = 0 then [] else
    let step := delta * stepSize * range
    [Eff.setParamValue (ParamRef.selParam pd.pid)
      (max s.selectedParamMin (min s.selectedParamMax (s.selectedParamValue + step)))]

/-- `RingManager.resetSelectedParameter`. -/
def resetSelectedParameter (s : RM) : List Eff :=
  match s.selectedParam with
  | none => []
  | some pd =>
    if s.selectedParamSwitching then [] else
    [Eff.setParamValue (ParamRef.selParam pd.pid)
      (max s.selectedParamMin (min s.selectedParamMax s.selectedParamDefault))]

/-- `RingManager.setActivePropertyValue`: maps a raw 0–255 byte onto the
active property's native range. -/
def setActivePropertyValue (s : RM) (ringIndex : Int) (rawValue : ℚ) : List Eff :=
  let clamped := max 0 (min 255 rawValue)
  let norm := clamped / 255
  if s.activeProperty = "selected_parameter" then
    match s.selectedParam with
    | some pd =>
      if s.selectedParamSwitching then [] else
      [Eff.setParamValue (ParamRef.selParam pd.pid)
        (s.selectedParamMin + norm * (s.selectedParamMax - s.selectedParamMin))]
    | none => []
  else if s.activeProperty = "volume" then setVolume s ringIndex norm
  else if s.activeProperty = "panning" then setPanning s ringIndex (norm * 2 - 1)
  else if strStartsWith s.activeProperty "send:" then
    match parseIntJS (strDrop s.activeProperty 5) with
    | some sendIndex => setSend s ringIndex sendIndex norm
    | none => []
  else []

/-- `RingManager.adjustActivePropertyValue`: applies an encoder delta to
the cached value and writes the clamped result. -/
def adjustActivePropertyValue (s : RM) (ringIndex : Int) (delta stepSize : ℚ) :
    List Eff :=
  if s.activeProperty = "selected_parameter" then
    adjustSelectedParameter s delta stepSize
  else
  match getTrackAtRingIndex s ringIndex with
  | none => []
  | some t =>
    match mget s.trackStates t.id with
    | none => []
    | some st =>
      if s.activeProperty = "volume" then
        setVolume s ringIndex (max 0 (min 1 (st.volume + delta * stepSize)))
      else if s.activeProperty = "panning" then
        setPanning s ringIndex (max (-1) (min 1 (st.panning + delta * stepSize * 2)))
      else if strStartsWith s.activeProperty "send:" then
        match parseIntJS (strDrop s.activeProperty 5) with
        | some sendIndex =>
          if sendIndex < (st.sends.length : Int) then
            setSend s ringIndex sendIndex
              (max 0 (min 1 (jsIdxQ st.sends sendIndex + delta * stepSize)))
          else []
        | none => []
      else []

/-- `RingManager.resetActivePropertyValue`. -/
def resetActivePropertyValue (s : RM) (ringIndex : Int) : List Eff :=
  if s.activeProperty = "selected_parameter" then resetSelectedParameter s
  else if s.activeProperty = "volume" then setVolume s ringIndex (85 / 100)
  else if s.activeProperty = "panning" then setPanning s ringIndex 0
  else if strStartsWith s.activeProperty "send:" then
    match parseIntJS (strDrop s.activeProperty 5) with
    | some sendIndex => setSend s ringIndex sendIndex 0
    | none => []
  else []

/-! ## Selected parameter (`ring-manager.js` 518–598) -/

/-- The `"value"` listener registered on the selected parameter. -/
def paramValueListener (s : RM) (v : ℚ) : RM × List Msg :=
  let s1 := { s with selectedParamValue := v }
  let range := s1.selectedParamMax - s1.selectedParamMin
  (s1,
   [Msg.rtParam s1.selectedParamName v
     (if range ≠ 0 then jsDiv (v - s1.selectedParamMin) range else some 0)
     s1.selectedParamMin s1.selectedParamMax])

/-- `RingManager.onSelectedParameterChanged`.  The whole body is inside
`try`/`catch`/`finally`, so the call always resolves: on a fetch failure
the catch sets `selectedParam = null` and the finally clears the guard. -/
def onSelectedParameterChanged (env : Env) (s : RM) (param : Option ParamData) :
    RM × List Msg :=
  let s0 := { s with selectedParamSwitching := true,
                     globalSubKeys := removeByPref s.globalSubKeys "selected_param:value" }
  match param with
  | none =>
    ({ s0 with selectedParam := none, selectedParamName := "",
               selectedParamValue := 0, selectedParamMin := 0,
               selectedParamMax := 1, selectedParamDefault := 0,
               selectedParamSwitching := false },
     [Msg.rtParam "" 0 (some 0) 0 1])
  | some p =>
    if env.selParamFetchFails then
      ({ s0 with selectedParam := none, selectedParamSwitching := false }, [])
    else
      let s1 := { s0 with selectedParam := some p, selectedParamName := p.name,
                          selectedParamValue := p.value, selectedParamMin := p.pmin,
                          selectedParamMax := p.pmax, selectedParamDefault := p.defaultValue,
                          globalSubKeys := addKey s0.globalSubKeys "selected_param:value" }
      let range := p.pmax - p.pmin
      ({ s1 with selectedParamSwitching := false },
       [Msg.rtParam p.name p.value
         (if range ≠ 0 then jsDiv (p.value - p.pmin) range else some 0)
         p.pmin p.pmax])

/-! ## Per-track listener registration (`ring-manager.js` 877–1052) -/

/-- The per-send `addListener` loop of `subscribeRingTrack`: returns the
keys registered with `ringSubs` and whether the loop completed (a failing
`addListener` aborts it, keeping earlier keys). -/
def sendKeysGo (env : Env) (id : String) : List Nat → List String × Bool
  | [] => ([], true)
  | si :: rest =>
    if !rpcOk env (id ++ ":listen:send:" ++ toString si) then ([], false)
    else
      let r := sendKeysGo env id rest
      (("track:" ++ id ++ ":send:" ++ toString si) :: r.1, r.2)

/-- The body of `subscribeRingTrack` for a single track: the sequence of
fallible `get`/`addListener` RPC calls.  Returns the `ringSubs` keys added
(in registration order) and, when every call succeeded, the completed
`RingTrackState` and mixer-cache entry.  A failing call aborts the
sequence — the source has no `try`/`catch` here — so the keys registered
before the failure are kept and no state entry is produced. -/
def buildRingTrack (env : Env) (master : Bool) (ringIdx0 : Int) (t : TrackData) :
    List String × Option (TrackState × MixerDeviceCache) :=
  let id := t.id
  if !rpcOk env (id ++ ":get:has_midi_input") then ([], none) else
  if !rpcOk env (id ++ ":get:has_audio_input") then ([], none) else
  let trackIsMidi := t.hasMidiInput && !t.hasAudioInput
  if !rpcOk env (id ++ ":get:name") then ([], none) else
  let st : TrackState :=
    { id := id, ringIndex := ringIdx0, name := t.name,
      color := hexToRgb t.rawColor, isMidi := trackIsMidi,
      mute := false, solo := false, arm := false, canBeArmed := false,
      volume := 0, panning := 0, sends := [] }
  if !rpcOk env (id ++ ":listen:name") then ([], none) else
  let ks := ["track:" ++ id ++ ":name"]
  if !rpcOk env (id ++ ":listen:color") then (ks, none) else
  let ks := ks ++ ["track:" ++ id ++ ":color"]
  if !master && !rpcOk env (id ++ ":get:mute") then (ks, none) else
  let st := if master then st else { st with mute := t.mute }
  if !master && !rpcOk env (id ++ ":listen:mute") then (ks, none) else
  let ks := if master then ks else ks ++ ["track:" ++ id ++ ":mute"]
  if !master && !rpcOk env (id ++ ":get:solo") then (ks, none) else
  let st := if master then st else { st with solo := t.solo }
  if !master && !rpcOk env (id ++ ":listen:solo") then (ks, none) else
  let ks := if master then ks else ks ++ ["track:" ++ id ++ ":solo"]
  if !rpcOk env (id ++ ":get:can_be_armed") then (ks, none) else
  let st := { st with canBeArmed := t.canBeArmed }
  if t.canBeArmed && !rpcOk env (id ++ ":get:arm") then (ks, none) else
  let st := if t.canBeArmed then { st with arm := t.arm } else st
  if t.canBeArmed && !rpcOk env (id ++ ":listen:arm") then (ks, none) else
  let ks := if t.canBeArmed then ks ++ ["track:" ++ id ++ ":arm"] else ks
  if !rpcOk env (id ++ ":get:mixer_device") then (ks, none) else
  if !trackIsMidi && !rpcOk env (id ++ ":get:volume") then (ks, none) else
  let st := if trackIsMidi then st else { st with volume := t.volume }
  if !trackIsMidi && !rpcOk env (id ++ ":listen:volume") then (ks, none) else
  let ks := if trackIsMidi then ks else ks ++ ["track:" ++ id ++ ":volume"]
  if !trackIsMidi && !rpcOk env (id ++ ":get:panning") then (ks, none) else
  let st := if trackIsMidi then st else { st with panning := t.panning }
  if !trackIsMidi && !rpcOk env (id ++ ":listen:panning") then (ks, none) else
  let ks := if trackIsMidi then ks else ks ++ ["track:" ++ id ++ ":panning"]
  if !master && !rpcOk env (id ++ ":get:sends") then (ks, none) else
  let st := if master then st else { st with sends := t.sends }
  let sendRes := if master then ([], true) else sendKeysGo env id (List.range t.sends.length)
  let ks := ks ++ sendRes.1
  if !sendRes.2 then (ks, none) else
  let mc : MixerDeviceCache :=
    { volume := if trackIsMidi then none else some (ParamRef.volume id),
      panning := if trackIsMidi then none else some (ParamRef.panning id),
      sends := if master then [] else (List.range t.sends.length).map (ParamRef.send id) }
  (ks, some (st, mc))

/-- `RingManager.subscribeRingTrack`: runs the RPC sequence and, on
success, stores the mixer-cache entry and the track state.  The `Bool` is
false when the build was aborted by a failing RPC call (the error then
propagates to the caller). -/
def subscribeRingTrack (env : Env) (s : RM) (t : TrackData) : RM × Bool :=
  let master := isMaster s t
  let ridx := (mget s.ringIndexByTrackId t.id).getD 0
  match buildRingTrack env master ridx t with
  | (ks, none) => ({ s with ringSubKeys := ks.foldl addKey s.ringSubKeys }, false)
  | (ks, some (st, mc)) =>
    ({ s with ringSubKeys := ks.foldl addKey s.ringSubKeys,
              mixerCache := mset s.mixerCache t.id mc,
              trackStates := mset s.trackStates t.id st }, true)

/-! ## State sync to Grid (`ring-manager.js` 1101–1148) -/

/-- Loop body of `sendFullSync` over `currentRingTrackIds`.  (The source
also writes the resolved index back into `state.ringIndex`; that field is
never read afterwards, so the model keeps `sendFullSync` read-only.) -/
def fullSyncGo (s : RM) : List String → List Msg
  | [] => []
  | id :: rest =>
    (match mget s.trackStates id with
     | none => []
     | some st =>
       let i := (mget s.ringIndexByTrackId id).getD 0
       [Msg.rtMute i st.mute, Msg.rtSolo i st.solo, Msg.rtArm i st.arm]
       ++ (if st.isMidi then []
           else [Msg.rtVol i st.volume st.volume,
                 Msg.rtPan i st.panning ((st.panning + 1) / 2)])
       ++ [Msg.rtInfo i st.name st.color st.isMidi]
       ++ (List.range st.sends.length).map (fun si =>
            Msg.rtSend i (si : Int) (jsIdxQ st.sends (si : Int))
              (jsIdxQ st.sends (si : Int))))
    ++ fullSyncGo s rest

/-- `RingManager.sendFullSync`. -/
def sendFullSync (s : RM) : List Msg := fullSyncGo s s.currentRingTrackIds

/-! ## Diff-based listener sync (`ring-manager.js` 842–873) -/

/-- The removal loop of `syncRingListeners`: for each removed id,
`ringSubs.removeByPrefix("track:{id}")` and deletion from the three maps. -/
def removeLeft (s : RM) (ids : List String) : RM :=
  ids.foldl (fun s id =>
    { s with ringSubKeys := removeByPref s.ringSubKeys ("track:" ++ id),
             ringIndexByTrackId := mdel s.ringIndexByTrackId id,
             trackStates := mdel s.trackStates id,
             mixerCache := mdel s.mixerCache id }) s

/-- The index-map rebuild loop of `syncRingListeners`. -/
def setIdxLoop (m : List (String × Int)) : List String → Int → List (String × Int)
  | [], _ => m
  | id :: rest, i => setIdxLoop (mset m id i) rest (i + 1)

/-- The sequential subscribe loop over entered tracks; a failing
`subscribeRingTrack` aborts the loop (and hence `syncRingListeners`). -/
def subscribeAdded (env : Env) (s : RM) : List TrackData → RM × Bool
  | [] => (s, true)
  | t :: rest =>
    match subscribeRingTrack env s t with
    | (s1, true) => subscribeAdded env s1 rest
    | (s1, false) => (s1, false)

/-- `const windowTracks = this.allTracks.slice(trackOffset, trackOffset + ringWidth)`. -/
def windowTracksOf (s : RM) : List TrackData :=
  jsSlice s.allTracks s.trackOffset (s.trackOffset + s.ringWidth)

/-- `const newIds = windowTracks.map(t => t.raw.id)`. -/
def newIdsOf (s : RM) : List String := (windowTracksOf s).map (fun t => t.id)

/-- `const removed = currentRingTrackIds.filter(id => !newIdSet.has(id))`. -/
def removedOf (s : RM) : List String :=
  s.currentRingTrackIds.filter (fun id => ¬ id ∈ newIdsOf s)

/-- `const added = windowTracks.filter(t => !oldIds.has(t.raw.id))`. -/
def addedOf (s : RM) : List TrackData :=
  (windowTracksOf s).filter (fun t => ¬ t.id ∈ s.currentRingTrackIds)

/-- State after the removal loop of `syncRingListeners`. -/
def afterRemove (s : RM) : RM := removeLeft s (removedOf s)

/-- State after the index-map rebuild loop of `syncRingListeners`. -/
def afterIndex (s : RM) : RM :=
  { afterRemove s with
      ringIndexByTrackId := setIdxLoop (afterRemove s).ringIndexByTrackId (newIdsOf s) 0 }

/-- `RingManager.syncRingListeners`.  Returns the new state, the emitted
messages, and whether the sync completed (false when a track build
failed, in which case `currentRingTrackIds` is not updated and no full
sync is sent). -/
def syncRingListeners (env : Env) (s : RM) : RM × List Msg × Bool :=
  match subscribeAdded env (afterIndex s) (addedOf s) with
  | (s3, false) => (s3, [], false)
  | (s3, true) =>
    let s4 := { s3 with currentRingTrackIds := newIdsOf s }
    (s4, sendFullSync s4, true)

/-! ## Lifecycle and navigation (`ring-manager.js` 94–245, 1155–1175) -/

/-- Result of an operation that may touch the DAW, emit messages, and whose
promise may reject (`ok = false`). -/
structure OpRes where
  st : RM
  writes : List Eff
  msgs : List Msg
  ok : Bool
  deriving DecidableEq, Repr

/-- `RingManager.setOffset`. -/
def setOffset (env : Env) (s : RM) (trackOffset sceneOffset : Int) : OpRes :=
  let r := syncRingListeners env
    { s with trackOffset := trackOffset, sceneOffset := sceneOffset }
  { st := r.1, writes := [Eff.setSessionOffset trackOffset sceneOffset],
    msgs := r.2.1, ok := r.2.2 }

/-- `RingManager.setupRing`. -/
def setupRing (env : Env) (s : RM) (numTracks numScenes trackOffset sceneOffset : Int) :
    OpRes :=
  let r := syncRingListeners env
    { s with ringWidth := numTracks, ringScenes := numScenes,
             trackOffset := trackOffset, sceneOffset := sceneOffset }
  { st := r.1,
    writes := [Eff.setupSessionBox numTracks numScenes,
               Eff.setSessionOffset trackOffset sceneOffset],
    msgs := r.2.1, ok := r.2.2 }

/-- Navigation direction. -/
inductive Dir where
  | left
  | right
  deriving DecidableEq, Repr

/-- `RingManager.navigateRing`: refreshes the visible-track list, clamps
`trackOffset ± 1` to `[0, max(0, len − width)]`, and only on a change
moves the offset and selects the track at ring index 0. -/
def navigateRing (env : Env) (s : RM) (dir : Dir) : OpRes :=
  let s0 := { s with allTracks := env.visibleTracks }
  let delta : Int := match dir with | Dir.right => 1 | Dir.left => -1
  let maxOffset : Int := max 0 ((s0.allTracks.length : Int) - s0.ringWidth)
  let newOffset := max 0 (min (s0.trackOffset + delta) maxOffset)
  if newOffset = s0.trackOffset then { st := s0, writes := [], msgs := [], ok := true }
  else
    let r := setOffset env s0 newOffset s0.sceneOffset
    if r.ok then { r with writes := r.writes ++ selectTrackInRing r.st 0 }
    else r

/-- `RingManager.followTrackIndex`: moves the ring only when the selected
track's index is valid and outside the current window. -/
def followTrackIndex (env : Env) (s : RM) (trackIndex : Int) : OpRes :=
  if trackIndex < 0 ∨ (s.allTracks.length : Int) ≤ trackIndex then
    { st := s, writes := [], msgs := [], ok := true }
  else if s.trackOffset ≤ trackIndex ∧ trackIndex < s.trackOffset + s.ringWidth then
    { st := s, writes := [], msgs := [], ok := true }
  else
    let maxOffset : Int := max 0 ((s.allTracks.length : Int) - s.ringWidth)
    let newOffset := max 0 (min trackIndex maxOffset)
    setOffset env s newOffset s.sceneOffset

/-! ## Full-state dump (`ring-manager.js` 1192–1258) -/

/-- JS `findIndex` by track id (−1 when absent). -/
def jsFindIndex (l : List TrackData) (id : String) : Int :=
  match l.findIdx? (fun t => t.id = id) with
  | some n => (n : Int)
  | none => -1

/-- The selected-track `try` block of `requestFullState`: fetches the
selected track (a rejecting get is caught and pushes nothing), records
`selectedTrackIndex`, and emits `RT_SELECTED` from the live-cached
name/color. -/
def requestSelBlock (env : Env) (s1 : RM) : RM × List Msg :=
  if env.selTrackGetFails then (s1, [])
  else
    match env.selectedTrack with
    | none => (s1, [])
    | some t =>
      let trackIndex := jsFindIndex s1.allTracks t.id
      let ringIdx : Int :=
        if ¬ trackIndex = -1 then (mget s1.ringIndexByTrackId t.id).getD (-1)
        else -1
      ({ s1 with selectedTrackIndex := trackIndex },
       [Msg.rtSelected trackIndex ringIdx s1.selectedTrackName s1.selectedTrackColor])

/-- The selected-parameter push of `requestFullState`. -/
def requestParamMsg (s2 : RM) : List Msg :=
  match s2.selectedParam with
  | some _ =>
    [Msg.rtParam s2.selectedParamName s2.selectedParamValue
      (if s2.selectedParamMax - s2.selectedParamMin ≠ 0 then
        jsDiv (s2.selectedParamValue - s2.selectedParamMin)
          (s2.selectedParamMax - s2.selectedParamMin)
       else some 0)
      s2.selectedParamMin s2.selectedParamMax]
  | none => [Msg.rtParam "" 0 (some 0) 0 1]

/-- `RingManager.requestFullState`: refreshes visible tracks, re-syncs the
ring, then pushes the full ring state, the selected track, the playing
clip, the transport state, and the selected parameter. -/
def requestFullState (env : Env) (s : RM) : RM × List Msg × Bool :=
  match syncRingListeners env { s with allTracks := env.visibleTracks } with
  | (s1, syncMsgs, false) => (s1, syncMsgs, false)
  | (s1, syncMsgs, true) =>
    let s2 := (requestSelBlock env s1).1
    (s2,
     syncMsgs ++ sendFullSync s1 ++ (requestSelBlock env s1).2 ++
       [Msg.rtPlayingClip s2.playingClipName s2.playingClipColor] ++
       [Msg.rtTransport s2.isPlaying s2.isRecording] ++ requestParamMsg s2,
     true)

/-! ## Concrete fixtures (used by counterexamples and witnesses) -/

/-- A plain audio track with the given id and name. -/
def mkTrack (id name : String) : TrackData :=
  { id := id, rawColor := 0, name := name, mute := false, solo := false,
    canBeArmed := true, arm := false, hasMidiInput := false, hasAudioInput := true,
    volume := 1, panning := 0, sends := [0, 0] }

def trackA : TrackData := mkTrack "a" "T0"

def trackB : TrackData := mkTrack "b" "T1"

def trackC : TrackData := mkTrack "c" "T2"

def trackD : TrackData := mkTrack "d" "T3"

def trackE : TrackData := mkTrack "e" "T4"

/-- An environment with three visible tracks and no RPC failures. -/
def envPlain : Env :=
  { visibleTracks := [trackA, trackB, trackC], failTokens := [],
    selParamFetchFails := false, selectedTrack := none, selTrackGetFails := false }

/-- A ring manager over `[trackA, trackB, trackC]` with an empty ring of
width 2 (as after `init`, before the first sync). -/
def rmEmpty : RM :=
  { currentRingTrackIds := [], ringIndexByTrackId := [], trackStates := [],
    mixerCache := [], ringSubKeys := [], globalSubKeys := [],
    ringWidth := 2, ringScenes := 8, trackOffset := 0, sceneOffset := 0,
    masterTrackId := none, allTracks := [trackA, trackB, trackC],
    activeProperty := "volume", isPlaying := false, isRecording := false,
    selectedTrackName := "", selectedTrackColor := (0, 0, 0),
    selectedTrackIndex := -1, playingClipName := "", playingClipColor := (0, 0, 0),
    selectedParam := none, selectedParamName := "", selectedParamValue := 0,
    selectedParamMin := 0, selectedParamMax := 1, selectedParamDefault := 0,
    selectedParamSwitching := false }

/-- An environment where fetching `mute` of track `"b"` rejects. -/
def envMuteFail : Env := { envPlain with failTokens := ["b:get:mute"] }

/-- A selected parameter fixture (`min = −24, max = 24, value = 6`). -/
def paramP : ParamData :=
  { pid := 7, name := "P", value := 6, pmin := -24, pmax := 24, defaultValue := 0 }

/-- An environment where the five-way parameter metadata fetch rejects. -/
def envFetchFail : Env := { envPlain with selParamFetchFails := true }

/-- A state in the middle of a selected-parameter switch. -/
def rmSwitching : RM :=
  { rmEmpty with selectedParamSwitching := true, selectedParam := some paramP,
                 activeProperty := "selected_parameter",
                 selectedParamMin := -24, selectedParamMax := 24,
                 selectedParamValue := 6 }

/-- The `TrackState` that the builder would cache for an audio track. -/
def stOf (t : TrackData) (i : Int) : TrackState :=
  { id := t.id, ringIndex := i, name := t.name, color := hexToRgb t.rawColor,
    isMidi := false, mute := t.mute, solo := t.solo, arm := t.arm,
    canBeArmed := t.canBeArmed, volume := t.volume, panning := t.panning,
    sends := t.sends }

/-- The mixer-cache entry that the builder would cache for an audio track. -/
def mcOf (t : TrackData) : MixerDeviceCache :=
  { volume := some (ParamRef.volume t.id), panning := some (ParamRef.panning t.id),
    sends := (List.range t.sends.length).map (ParamRef.send t.id) }

/-- A state with five tracks and the ring window (width 2, offset 0) over
`"a"`, `"b"`: both are resident with cached state and mixer handles. -/
def rmRing : RM :=
  { rmEmpty with
      allTracks := [trackA, trackB, trackC, trackD, trackE],
      currentRingTrackIds := ["a", "b"],
      ringIndexByTrackId := [("a", 0), ("b", 1)],
      trackStates := [("a", stOf trackA 0), ("b", stOf trackB 1)],
      mixerCache := [("a", mcOf trackA), ("b", mcOf trackB)] }

/-- `rmRing` with an unparseable `send:N` active property. -/
def rmSendBad : RM := { rmRing with activeProperty := "send:x" }

/-- `rmRing` shifted right by one: the next sync drops `"a"` and adds
`"c"`. -/
def rmShift : RM := { rmRing with trackOffset := 1 }

/-- The delta applied by `navigateRing` for a direction. -/
def navDelta : Dir → Int
  | Dir.right => 1
  | Dir.left => -1

/-- Track `"a"` state with three sends, the third at `0.25`. -/
def stA8 : TrackState := { stOf trackA 0 with sends := [0, 0, 1 / 4] }

/-- Mixer cache for track `"a"` with three send handles. -/
def mcA8 : MixerDeviceCache :=
  { volume := some (ParamRef.volume "a"), panning := some (ParamRef.panning "a"),
    sends := [ParamRef.send "a" 0, ParamRef.send "a" 1, ParamRef.send "a" 2] }

/-- A state for exercising `adjustActivePropertyValue`: track `"a"`
resident at ring index 0 with cached sends, plus a selected parameter. -/
def rmAdjust : RM :=
  { rmEmpty with
      currentRingTrackIds := ["a"], ringIndexByTrackId := [("a", 0)],
      trackStates := [("a", stA8)], mixerCache := [("a", mcA8)],
      selectedParam := some paramP, selectedParamMin := -24,
      selectedParamMax := 24, selectedParamValue := 6 }

/-- A MIDI track (has MIDI input, no audio input). -/
def trackM : TrackData :=
  { mkTrack "m" "M0" with
      hasMidiInput := true, hasAudioInput := false, sends := [1] }

/-- Cached state of the MIDI track. -/
def stM : TrackState := { stOf trackM 1 with isMidi := true }

/-- A state with one audio and one MIDI resident, for the full-sync walk. -/
def rmFullSync : RM :=
  { rmEmpty with
      currentRingTrackIds := ["a", "m"],
      ringIndexByTrackId := [("a", 0), ("m", 1)],
      trackStates := [("a", stOf trackA 0), ("m", stM)] }

/-- The per-position cached states of `rmFullSync`. -/
def stsFullSync : Nat → TrackState := fun k => if k = 0 then stOf trackA 0 else stM

/-- A selected parameter with `min = max` (zero range). -/
def paramQ : ParamData :=
  { pid := 3, name := "Q", value := 2, pmin := 2, pmax := 2, defaultValue := 2 }

/-- A state whose selected parameter has `max − min = 0`. -/
def rmZeroRange : RM :=
  { rmEmpty with
      selectedParam := some paramP, selectedParamName := "P",
      selectedParamMin := 5, selectedParamMax := 5, selectedParamValue := 5,
      activeProperty := "selected_parameter" }

/-- The spec's description of the per-resident emission block of
`sendFullSync`: `RT_MUTE`, `RT_SOLO`, `RT_ARM`, then `RT_VOL`+`RT_PAN`
unless MIDI, then `RT_INFO`, then one `RT_SEND` per cached send.  Stated
from the spec's words, to be compared with `sendFullSync` (which is
translated from the source). -/
def trackBlock (i : Int) (st : TrackState) : List Msg :=
  [Msg.rtMute i st.mute, Msg.rtSolo i st.solo, Msg.rtArm i st.arm]
  ++ (if st.isMidi then []
      else [Msg.rtVol i st.volume st.volume,
            Msg.rtPan i st.panning ((st.panning + 1) / 2)])
  ++ [Msg.rtInfo i st.name st.color st.isMidi]
  ++ (List.range st.sends.length).map (fun si =>
       Msg.rtSend i (si : Int) (jsIdxQ st.sends (si : Int))
         (jsIdxQ st.sends (si : Int)))

/-- Whether a message is an `RT_PARAM` event. -/
def isParam : Msg → Bool
  | Msg.rtParam _ _ _ _ _ => true
  | _ => false

/-- The `nv` field of an `RT_PARAM` event (`none` for other events). -/
def paramNv : Msg → Option ℚ
  | Msg.rtParam _ _ nv _ _ => nv
  | _ => none

/-! ## Basic lemmas about the map model -/

lemma mget_mset_self {α : Type} (m : List (String × α)) (k : String) (v : α) :
    mget (mset m k v) k = some v := by
  simp [mset, mget]

lemma mget_mdel_self {α : Type} (m : List (String × α)) (k : String) :
    mget (mdel m k) k = none := by
  induction m with
  | nil => rfl
  | cons p rest ih =>
    by_cases hp : p.1 = k
    · simpa [mdel, hp] using ih
    · simpa [mdel, mget, hp] using ih

lemma mget_mdel_ne {α : Type} (m : List (String × α)) (k x : String) (h : ¬ x = k) :
    mget (mdel m k) x = mget m x := by
  induction m with
  | nil => rfl
  | cons p rest ih =>
    by_cases hp : p.1 = k
    · have hpx : ¬ p.1 = x := by
        rw [hp]; exact fun hc => h hc.symm
      have hkx : ¬ k = x := fun hc => h hc.symm
      simp [mdel, mget, hp, hpx, hkx, ih]
    · simp [mdel, mget, hp, ih]

lemma mget_mset_ne {α : Type} (m : List (String × α)) (k x : String) (v : α)
    (h : ¬ x = k) : mget (mset m k v) x = mget m x := by
  have hk : ¬ k = x := fun hc => h hc.symm
  simp [mset, mget, hk, mget_mdel_ne m k x h]

/-! ## Lemmas about the index-map rebuild loop -/

lemma setIdxLoop_notmem (ids : List String) (x : String) (hx : ¬ x ∈ ids) :
    ∀ (m : List (String × Int)) (i : Int), mget (setIdxLoop m ids i) x = mget m x := by
  induction ids with
  | nil => intro m i; rfl
  | cons id rest ih =>
    intro m i
    have hxi : ¬ x = id := fun hc => hx (by rw [hc]; exact List.mem_cons_self _ _)
    have hxr : ¬ x ∈ rest := fun hc => hx (List.mem_cons_of_mem _ hc)
    calc mget (setIdxLoop (mset m id i) rest (i + 1)) x
        = mget (mset m id i) x := ih hxr (mset m id i) (i + 1)
      _ = mget m x := mget_mset_ne m id x i hxi

lemma setIdxLoop_get (ids : List String) (hnd : ids.Nodup) :
    ∀ (m : List (String × Int)) (i : Int) (k : Nat) (hk : k < ids.length),
      mget (setIdxLoop m ids i) (ids.get ⟨k, hk⟩) = some (i + k) := by
  induction ids with
  | nil => intro m i k hk; exact absurd hk (by simp)
  | cons id rest ih =>
    intro m i k hk
    match k with
    | 0 =>
      have hid : ¬ id ∈ rest := (List.nodup_cons.mp hnd).1
      show mget (setIdxLoop (mset m id i) rest (i + 1)) id = some (i + 0)
      rw [setIdxLoop_notmem rest id hid, mget_mset_self, add_zero]
    | Nat.succ k' =>
      have hk' : k' < rest.length := Nat.lt_of_succ_lt_succ hk
      show mget (setIdxLoop (mset m id i) rest (i + 1)) (rest.get ⟨k', hk'⟩) =
        some (i + (k' + 1))
      rw [ih (List.nodup_cons.mp hnd).2 (mset m id i) (i + 1) k' hk']
      congr 1
      omega

/-! ## Shape lemmas: which fields each stateful operation can touch -/

lemma removeLeft_shape (ids : List String) :
    ∀ s : RM, ∃ ks m ts mc, removeLeft s ids =
      { s with ringSubKeys := ks, ringIndexByTrackId := m,
               trackStates := ts, mixerCache := mc } := by
  induction ids with
  | nil =>
    intro s
    exact ⟨s.ringSubKeys, s.ringIndexByTrackId, s.trackStates, s.mixerCache, rfl⟩
  | cons id rest ih =>
    intro s
    obtain ⟨ks, m, ts, mc, h⟩ := ih
      { s with ringSubKeys := removeByPref s.ringSubKeys ("track:" ++ id),
               ringIndexByTrackId := mdel s.ringIndexByTrackId id,
               trackStates := mdel s.trackStates id,
               mixerCache := mdel s.mixerCache id }
    exact ⟨ks, m, ts, mc, h⟩

lemma removeLeft_map_lookup (ids : List String) :
    ∀ (s : RM) (x : String), mget (removeLeft s ids).ringIndexByTrackId x =
      if x ∈ ids then none else mget s.ringIndexByTrackId x := by
  induction ids with
  | nil => intro s x; simp [removeLeft]
  | cons id rest ih =>
    intro s x
    have hstep : removeLeft s (id :: rest) = removeLeft
      { s with ringSubKeys := removeByPref s.ringSubKeys ("track:" ++ id),
               ringIndexByTrackId := mdel s.ringIndexByTrackId id,
               trackStates := mdel s.trackStates id,
               mixerCache := mdel s.mixerCache id } rest := rfl
    rw [hstep, ih]
    by_cases hx : x = id
    · subst hx
      by_cases hr : x ∈ rest <;> simp [hr, mget_mdel_self]
    · by_cases hr : x ∈ rest <;>
        simp [hr, hx, List.mem_cons, mget_mdel_ne _ _ _ hx]

lemma subscribeRingTrack_cases (env : Env) (s : RM) (t : TrackData) :
    subscribeRingTrack env s t =
      match buildRingTrack env (isMaster s t)
          ((mget s.ringIndexByTrackId t.id).getD 0) t with
      | (ks, none) => ({ s with ringSubKeys := ks.foldl addKey s.ringSubKeys }, false)
      | (ks, some (st, mc)) =>
        ({ s with ringSubKeys := ks.foldl addKey s.ringSubKeys,
                  mixerCache := mset s.mixerCache t.id mc,
                  trackStates := mset s.trackStates t.id st }, true) := rfl

lemma subscribeRingTrack_shape (env : Env) (s : RM) (t : TrackData) :
    ∃ ks ts mc, (subscribeRingTrack env s t).1 =
      { s with ringSubKeys := ks, trackStates := ts, mixerCache := mc } := by
  have h := subscribeRingTrack_cases env s t
  rcases hb : buildRingTrack env (isMaster s t)
      ((mget s.ringIndexByTrackId t.id).getD 0) t with ⟨ks, stmc⟩
  rw [hb] at h
  cases stmc with
  | none =>
    refine ⟨ks.foldl addKey s.ringSubKeys, s.trackStates, s.mixerCache, ?_⟩
    rw [h]
  | some p =>
    rcases p with ⟨st, mc⟩
    refine ⟨ks.foldl addKey s.ringSubKeys, mset s.trackStates t.id st,
      mset s.mixerCache t.id mc, ?_⟩
    rw [h]

lemma subscribeAdded_shape (env : Env) (l : List TrackData) :
    ∀ s : RM, ∃ ks ts mc, (subscribeAdded env s l).1 =
      { s with ringSubKeys := ks, trackStates := ts, mixerCache := mc } := by
  induction l with
  | nil =>
    intro s
    exact ⟨s.ringSubKeys, s.trackStates, s.mixerCache, rfl⟩
  | cons t rest ih =>
    intro s
    obtain ⟨ks1, ts1, mc1, h1⟩ := subscribeRingTrack_shape env s t
    rcases hsub : subscribeRingTrack env s t with ⟨s1, ok⟩
    rw [hsub] at h1
    have h1' : s1 = { s with
        ringSubKeys := ks1, trackStates := ts1, mixerCache := mc1 } := h1
    cases ok with
    | false =>
      refine ⟨ks1, ts1, mc1, ?_⟩
      simp only [subscribeAdded, hsub]
      exact h1'
    | true =>
      obtain ⟨ks2, ts2, mc2, h2⟩ := ih s1
      refine ⟨ks2, ts2, mc2, ?_⟩
      simp only [subscribeAdded, hsub]
      rw [h2, h1']

lemma syncRingListeners_cases (env : Env) (s : RM) :
    syncRingListeners env s =
      match subscribeAdded env (afterIndex s) (addedOf s) with
      | (s3, false) => (s3, [], false)
      | (s3, true) =>
        ({ s3 with currentRingTrackIds := newIdsOf s },
         sendFullSync { s3 with currentRingTrackIds := newIdsOf s }, true) := rfl

lemma afterIndex_shape (s : RM) :
    ∃ ks m ts mc, afterIndex s =
      { s with ringSubKeys := ks, ringIndexByTrackId := m,
               trackStates := ts, mixerCache := mc } := by
  obtain ⟨ksr, mr, tsr, mcr, hr⟩ := removeLeft_shape (removedOf s) s
  refine ⟨ksr, setIdxLoop mr (newIdsOf s) 0, tsr, mcr, ?_⟩
  unfold afterIndex afterRemove
  rw [hr]

lemma syncRingListeners_shape (env : Env) (s : RM) :
    ∃ cur m ts mc ks, (syncRingListeners env s).1 =
      { s with currentRingTrackIds := cur, ringIndexByTrackId := m,
               trackStates := ts, mixerCache := mc, ringSubKeys := ks } := by
  obtain ⟨ksi, mi, tsi, mci, hai⟩ := afterIndex_shape s
  obtain ⟨ks3, ts3, mc3, h3⟩ := subscribeAdded_shape env (addedOf s) (afterIndex s)
  have hc := syncRingListeners_cases env s
  rcases hadd : subscribeAdded env (afterIndex s) (addedOf s) with ⟨s3, ok⟩
  rw [hadd] at hc h3
  have h3' : s3 = { afterIndex s with
      ringSubKeys := ks3, trackStates := ts3, mixerCache := mc3 } := h3
  cases ok with
  | false =>
    refine ⟨s.currentRingTrackIds, mi, ts3, mc3, ks3, ?_⟩
    rw [hc]
    show s3 = _
    rw [h3', hai]
  | true =>
    refine ⟨newIdsOf s, mi, ts3, mc3, ks3, ?_⟩
    rw [hc]
    show ({ s3 with currentRingTrackIds := newIdsOf s } : RM) = _
    rw [h3', hai]

/-- `syncRingListeners` only touches the five ring bookkeeping fields. -/
lemma sync_preserves (env : Env) (s : RM) :
    (syncRingListeners env s).1.trackOffset = s.trackOffset ∧
    (syncRingListeners env s).1.sceneOffset = s.sceneOffset ∧
    (syncRingListeners env s).1.allTracks = s.allTracks ∧
    (syncRingListeners env s).1.ringWidth = s.ringWidth ∧
    (syncRingListeners env s).1.selectedParam = s.selectedParam ∧
    (syncRingListeners env s).1.selectedParamName = s.selectedParamName ∧
    (syncRingListeners env s).1.selectedParamValue = s.selectedParamValue ∧
    (syncRingListeners env s).1.selectedParamMin = s.selectedParamMin ∧
    (syncRingListeners env s).1.selectedParamMax = s.selectedParamMax ∧
    (syncRingListeners env s).1.selectedParamSwitching = s.selectedParamSwitching ∧
    (syncRingListeners env s).1.playingClipName = s.playingClipName ∧
    (syncRingListeners env s).1.playingClipColor = s.playingClipColor ∧
    (syncRingListeners env s).1.isPlaying = s.isPlaying ∧
    (syncRingListeners env s).1.isRecording = s.isRecording ∧
    (syncRingListeners env s).1.selectedTrackName = s.selectedTrackName ∧
    (syncRingListeners env s).1.selectedTrackColor = s.selectedTrackColor := by
  obtain ⟨cur, m, ts, mc, ks, h⟩ := syncRingListeners_shape env s
  rw [h]
  exact ⟨rfl, rfl, rfl, rfl, rfl, rfl, rfl, rfl, rfl, rfl, rfl, rfl, rfl, rfl,
    rfl, rfl⟩

/-- The state fields of `setOffset` relevant to the offset invariant. -/
lemma setOffset_fields (env : Env) (s : RM) (t o : Int) :
    (setOffset env s t o).st.trackOffset = t ∧
    (setOffset env s t o).st.sceneOffset = o ∧
    (setOffset env s t o).st.allTracks = s.allTracks ∧
    (setOffset env s t o).st.ringWidth = s.ringWidth ∧
    (setOffset env s t o).writes = [Eff.setSessionOffset t o] := by
  have h := sync_preserves env { s with trackOffset := t, sceneOffset := o }
  exact ⟨h.1, h.2.1, h.2.2.1, h.2.2.2.1, rfl⟩

/-- C1 counterexample: `setOffset(5, 0)` over three tracks with ring width 2
stores `trackOffset = 5`, violating `trackOffset ≤ max(0, len(tracks) − width)
= 1`: the code clamps neither in `setOffset` nor in `setupRing`. -/
theorem setOffset_unclamped_cex :
    (setOffset envPlain rmEmpty 5 0).st.trackOffset = 5 ∧
    max 0 (((setOffset envPlain rmEmpty 5 0).st.allTracks.length : Int) -
      (setOffset envPlain rmEmpty 5 0).st.ringWidth) = 1 ∧
    ¬ ((5 : Int) ≤ 1) := by
  refine ⟨rfl, ?_, by norm_num⟩
  have h := setOffset_fields envPlain rmEmpty 5 0
  rw [h.2.2.1, h.2.2.2.1]
  rfl

/-- C1 (amended): `navigateRing` always leaves
`0 ≤ trackOffset ≤ max(0, len(tracks) − width)` (over the refreshed
visible-track list), and the follow-on-selected-track path does so whenever
it moves the ring; `setOffset` and `setupRing`, however, store the
requested offset verbatim without clamping, so after them the invariant
holds only if the requested offset already satisfies it. -/
theorem offset_bounds_after_navigation (env : Env) (s : RM) (dir : Dir)
    (w h t o ti : Int) :
    (0 ≤ (navigateRing env s dir).st.trackOffset ∧
      (navigateRing env s dir).st.trackOffset ≤
        max 0 (((navigateRing env s dir).st.allTracks.length : Int) -
          (navigateRing env s dir).st.ringWidth)) ∧
    (setOffset env s t o).st.trackOffset = t ∧
    (setupRing env s w h t o).st.trackOffset = t ∧
    (¬ (ti < 0 ∨ (s.allTracks.length : Int) ≤ ti) →
      ¬ (s.trackOffset ≤ ti ∧ ti < s.trackOffset + s.ringWidth) →
      0 ≤ (followTrackIndex env s ti).st.trackOffset ∧
        (followTrackIndex env s ti).st.trackOffset ≤
          max 0 (((followTrackIndex env s ti).st.allTracks.length : Int) -
            (followTrackIndex env s ti).st.ringWidth)) := by
  refine ⟨?_, (setOffset_fields env s t o).1, ?_, ?_⟩
  · -- navigateRing always clamps (or was already at a clamped value)
    have key : ∀ a m : Int, 0 ≤ max 0 (min a (max 0 m)) ∧
        max 0 (min a (max 0 m)) ≤ max 0 m :=
      fun a m => ⟨le_max_left _ _, max_le (le_max_left _ _) (min_le_right _ _)⟩
    cases dir with
    | left =>
      simp only [navigateRing]
      split
      next hc =>
        rw [← hc]
        exact (key _ _)
      next hc =>
        have hf := setOffset_fields env { s with allTracks := env.visibleTracks }
          (max 0 (min (s.trackOffset + -1)
            (max 0 ((env.visibleTracks.length : Int) - s.ringWidth)))) s.sceneOffset
        split
        · exact ⟨by rw [hf.1]; exact (key _ _).1,
            by rw [hf.1, hf.2.2.1, hf.2.2.2.1]; exact (key _ _).2⟩
        · exact ⟨by rw [hf.1]; exact (key _ _).1,
            by rw [hf.1, hf.2.2.1, hf.2.2.2.1]; exact (key _ _).2⟩
    | right =>
      simp only [navigateRing]
      split
      next hc =>
        rw [← hc]
        exact (key _ _)
      next hc =>
        have hf := setOffset_fields env { s with allTracks := env.visibleTracks }
          (max 0 (min (s.trackOffset + 1)
            (max 0 ((env.visibleTracks.length : Int) - s.ringWidth)))) s.sceneOffset
        split
        · exact ⟨by rw [hf.1]; exact (key _ _).1,
            by rw [hf.1, hf.2.2.1, hf.2.2.2.1]; exact (key _ _).2⟩
        · exact ⟨by rw [hf.1]; exact (key _ _).1,
            by rw [hf.1, hf.2.2.1, hf.2.2.2.1]; exact (key _ _).2⟩
  · -- setupRing stores the requested offset verbatim
    exact (sync_preserves env { s with
      ringWidth := w, ringScenes := h, trackOffset := t, sceneOffset := o }).1
  · -- follow path: when the selected track is valid and outside the window,
    -- the ring moves to a clamped offset
    intro h1 h2
    simp only [followTrackIndex, h1, h2, if_false]
    have hf := setOffset_fields env s
      (max 0 (min ti (max 0 ((s.allTracks.length : Int) - s.ringWidth)))) s.sceneOffset
    constructor
    · rw [hf.1]; exact le_max_left _ _
    · rw [hf.1, hf.2.2.1, hf.2.2.2.1]
      exact max_le (le_max_left _ _) (min_le_right _ _)

/-- C1 witness: the follow path applied at a concrete selected-track index
outside the window lands inside the bounds. -/
theorem offset_bounds_after_navigation_witness :
    0 ≤ (followTrackIndex envPlain rmEmpty 2).st.trackOffset ∧
    (followTrackIndex envPlain rmEmpty 2).st.trackOffset ≤
      max 0 (((followTrackIndex envPlain rmEmpty 2).st.allTracks.length : Int) -
        (followTrackIndex envPlain rmEmpty 2).st.ringWidth) := by
  have h := offset_bounds_after_navigation envPlain rmEmpty Dir.left 2 8 0 0 2
  exact h.2.2.2 (by decide) (by decide)

/-- C2 counterexample: with the `mute` fetch of track `"b"` rejecting, the
per-track build does NOT continue — the sync aborts (`ok = false`), the
track never enters `currentRingTrackIds`, no partial `TrackState` is
stored, and the listeners for the remaining properties (`solo` onwards)
are not registered; only the listeners registered before the failure
(`name`, `color`) remain. -/
theorem track_build_failure_cex :
    (syncRingListeners envMuteFail rmEmpty).2.2 = false ∧
    (syncRingListeners envMuteFail rmEmpty).1.currentRingTrackIds = [] ∧
    mget (syncRingListeners envMuteFail rmEmpty).1.trackStates "b" = none ∧
    "track:b:name" ∈ (syncRingListeners envMuteFail rmEmpty).1.ringSubKeys ∧
    ¬ "track:b:solo" ∈ (syncRingListeners envMuteFail rmEmpty).1.ringSubKeys :=
  ⟨rfl, rfl, rfl, by decide, by decide⟩

/-- If some track of the entered list has a failing build (whichever of
its fallible calls failed — the failure of `buildRingTrack` does not
depend on the ring index, which only enters the produced state), the
sequential subscribe loop returns `false`. -/
lemma subscribeAdded_abort_of_mem (env : Env) (t : TrackData) :
    ∀ (l : List TrackData) (s : RM),
      (∀ r : Int, (buildRingTrack env (isMaster s t) r t).2 = none) →
      t ∈ l → (subscribeAdded env s l).2 = false := by
  intro l
  induction l with
  | nil => intro s _ ht; cases ht
  | cons u rest ih =>
    intro s hf ht
    rcases hsub : subscribeRingTrack env s u with ⟨s1, ok⟩
    cases ok with
    | false => simp [subscribeAdded, hsub]
    | true =>
      rcases List.mem_cons.mp ht with heq | hrest
      · subst heq
        have hb := hf ((mget s.ringIndexByTrackId t.id).getD 0)
        have hfalse : (subscribeRingTrack env s t).2 = false := by
          rw [subscribeRingTrack_cases]
          rcases hb2 : buildRingTrack env (isMaster s t)
              ((mget s.ringIndexByTrackId t.id).getD 0) t with ⟨ks, r⟩
          rw [hb2] at hb
          cases r with
          | none => rfl
          | some p => exact absurd hb (by simp)
        rw [hsub] at hfalse
        exact absurd hfalse (by simp)
      · obtain ⟨ks1, ts1, mc1, h1⟩ := subscribeRingTrack_shape env s u
        rw [hsub] at h1
        have h1' : s1 = { s with
            ringSubKeys := ks1, trackStates := ts1, mixerCache := mc1 } := h1
        have hf1 : ∀ r : Int, (buildRingTrack env (isMaster s1 t) r t).2 = none := by
          intro r
          rw [h1']
          exact hf r
        simp only [subscribeAdded, hsub]
        exact ih s1 hf1 hrest

/-- C2 (amended): a failure to fetch or subscribe on any one property
during `subscribeRingTrack` — the hypothesis quantifies over the whole
fallible call chain: the build produces no state, whichever call failed —
aborts that track's build: the listeners registered before the failure
stay registered, but no (even partial) `TrackState` or mixer-cache entry
is stored and the result is marked failed; and whenever the track is
among the entered tracks of a sync, the error propagates to
`syncRingListeners`, which aborts without updating `currentRingTrackIds`
and without sending the full sync. -/
theorem subscribe_ring_track_abort (env : Env) (s : RM) (t : TrackData)
    (hf : ∀ r : Int, (buildRingTrack env (isMaster s t) r t).2 = none) :
    (subscribeRingTrack env s t =
      ({ s with
          ringSubKeys := (buildRingTrack env (isMaster s t)
            ((mget s.ringIndexByTrackId t.id).getD 0) t).1.foldl
              addKey s.ringSubKeys },
       false)) ∧
    (t ∈ addedOf s →
      (syncRingListeners env s).2.2 = false ∧
      (syncRingListeners env s).1.currentRingTrackIds = s.currentRingTrackIds ∧
      (syncRingListeners env s).2.1 = []) := by
  constructor
  · have hc := subscribeRingTrack_cases env s t
    have hb := hf ((mget s.ringIndexByTrackId t.id).getD 0)
    rcases hb' : buildRingTrack env (isMaster s t)
        ((mget s.ringIndexByTrackId t.id).getD 0) t with ⟨ks, r⟩
    rw [hb'] at hc hb
    cases r with
    | some p => exact absurd hb (by simp)
    | none => exact hc
  · intro ht
    have hm2 : ∀ r : Int,
        (buildRingTrack env (isMaster (afterIndex s) t) r t).2 = none := by
      obtain ⟨ks, m, ts, mc, hA⟩ := afterIndex_shape s
      rw [hA]
      exact hf
    have habort := subscribeAdded_abort_of_mem env t (addedOf s) (afterIndex s) hm2 ht
    have hc := syncRingListeners_cases env s
    obtain ⟨ks3, ts3, mc3, h3⟩ := subscribeAdded_shape env (addedOf s) (afterIndex s)
    obtain ⟨ksi, mi, tsi, mci, hai⟩ := afterIndex_shape s
    rcases hadd : subscribeAdded env (afterIndex s) (addedOf s) with ⟨s3, ok⟩
    rw [hadd] at hc habort h3
    have hok : ok = false := habort
    subst hok
    have h3' : s3 = { afterIndex s with
        ringSubKeys := ks3, trackStates := ts3, mixerCache := mc3 } := h3
    refine ⟨by rw [hc], ?_, by rw [hc]⟩
    rw [hc]
    show s3.currentRingTrackIds = s.currentRingTrackIds
    rw [h3', hai]

/-- C2 witness: the abort theorem at the concrete failing `mute` fetch of
track `"b"`: no state entry is stored and the surrounding sync aborts with
no id update and no emission. -/
theorem subscribe_ring_track_abort_witness :
    (subscribeRingTrack envMuteFail rmEmpty trackB).2 = false ∧
    mget (subscribeRingTrack envMuteFail rmEmpty trackB).1.trackStates "b" = none ∧
    (syncRingListeners envMuteFail rmEmpty).2.2 = false ∧
    (syncRingListeners envMuteFail rmEmpty).1.currentRingTrackIds = [] ∧
    (syncRingListeners envMuteFail rmEmpty).2.1 = [] := by
  have h := subscribe_ring_track_abort envMuteFail rmEmpty trackB (fun r => rfl)
  have hmem : trackB ∈ addedOf rmEmpty := by
    have hadd : addedOf rmEmpty = [trackA, trackB] := rfl
    rw [hadd]
    exact List.mem_cons_of_mem _ (List.mem_cons_self _ _)
  have h2 := h.2 hmem
  refine ⟨?_, ?_, h2.1, ?_, h2.2.2⟩
  · rw [h.1]
  · rw [h.1]
    rfl
  · rw [h2.2.1]
    rfl

/-- C4: while `selectedParamSwitching` is set, none of the write paths to
the selected parameter issues a `set("value", …)` — `adjustSelectedParameter`
and `resetSelectedParameter` drop unconditionally, and in
`selected_parameter` mode `setActivePropertyValue`,
`adjustActivePropertyValue` and `resetActivePropertyValue` drop too. -/
theorem switching_guard_blocks_writes (s : RM) (ri : Int) (raw δ step : ℚ)
    (hsw : s.selectedParamSwitching = true) :
    adjustSelectedParameter s δ step = [] ∧
    resetSelectedParameter s = [] ∧
    (s.activeProperty = "selected_parameter" →
      setActivePropertyValue s ri raw = [] ∧
      adjustActivePropertyValue s ri δ step = [] ∧
      resetActivePropertyValue s ri = []) := by
  have h1 : adjustSelectedParameter s δ step = [] := by
    cases h : s.selectedParam <;> simp [adjustSelectedParameter, h, hsw]
  have h2 : resetSelectedParameter s = [] := by
    cases h : s.selectedParam <;> simp [resetSelectedParameter, h, hsw]
  refine ⟨h1, h2, fun ha => ⟨?_, ?_, ?_⟩⟩
  · cases h : s.selectedParam <;> simp [setActivePropertyValue, ha, hsw, h]
  · simp [adjustActivePropertyValue, ha, h1]
  · simp [resetActivePropertyValue, ha, h2]

/-- C4 witness: concrete blocked writes in the middle of a parameter
switch. -/
theorem switching_guard_blocks_writes_witness :
    setActivePropertyValue rmSwitching 0 255 = [] ∧
    adjustSelectedParameter rmSwitching 10 (1 / 127) = [] := by
  have h := switching_guard_blocks_writes rmSwitching 0 255 10 (1 / 127) rfl
  exact ⟨(h.2.2 rfl).1, h.1⟩

/-- C5 counterexample: when the five-way metadata fetch rejects, the core
resets the selected parameter and clears the guard, but emits NO event at
all — in particular no blank `RT_PARAM`. -/
theorem param_fetch_failure_cex :
    (onSelectedParameterChanged envFetchFail rmEmpty (some paramP)).2 = [] ∧
    (onSelectedParameterChanged envFetchFail rmEmpty (some paramP)).1.selectedParam
      = none ∧
    (onSelectedParameterChanged envFetchFail rmEmpty
      (some paramP)).1.selectedParamSwitching = false :=
  ⟨rfl, rfl, rfl⟩

/-- C5 (amended): on a five-way metadata fetch failure the catch/finally
path resets `selectedParam` to null and clears the Switching guard, but
emits nothing (the blank `RT_PARAM` is only emitted on the null-parameter
path). -/
theorem param_fetch_failure_resets (env : Env) (s : RM) (p : ParamData)
    (hf : env.selParamFetchFails = true) :
    (onSelectedParameterChanged env s (some p)).1.selectedParam = none ∧
    (onSelectedParameterChanged env s (some p)).1.selectedParamSwitching = false ∧
    (onSelectedParameterChanged env s (some p)).2 = [] := by
  simp [onSelectedParameterChanged, hf]

/-- C5 witness: the failure path at a concrete fetch failure. -/
theorem param_fetch_failure_resets_witness :
    (onSelectedParameterChanged envFetchFail rmSwitching (some paramP)).1.selectedParam
      = none ∧
    (onSelectedParameterChanged envFetchFail rmSwitching
      (some paramP)).1.selectedParamSwitching = false ∧
    (onSelectedParameterChanged envFetchFail rmSwitching (some paramP)).2 = [] :=
  param_fetch_failure_resets envFetchFail rmSwitching paramP rfl

/-- C6: `navigateRing` refreshes the visible-track list, clamps
`trackOffset ± 1` to `[0, max(0, len − width)]`, and only when the clamped
offset differs performs the `setSessionOffset` write followed (when the
sync succeeded) by selecting the track now at ring index 0; when the
clamped offset equals the current one — in particular `navigateRing("left")`
at `trackOffset = 0` — nothing is written and nothing is emitted. -/
theorem navigate_ring_spec (env : Env) (s : RM) (dir : Dir) :
    (navigateRing env s dir).st.allTracks = env.visibleTracks ∧
    (max 0 (min (s.trackOffset + navDelta dir)
        (max 0 ((env.visibleTracks.length : Int) - s.ringWidth))) = s.trackOffset →
      navigateRing env s dir =
        { st := { s with allTracks := env.visibleTracks }, writes := [],
          msgs := [], ok := true }) ∧
    (∀ no, no = max 0 (min (s.trackOffset + navDelta dir)
        (max 0 ((env.visibleTracks.length : Int) - s.ringWidth))) →
      ¬ no = s.trackOffset →
      (navigateRing env s dir).st.trackOffset = no ∧
      (navigateRing env s dir).writes.head? =
        some (Eff.setSessionOffset no s.sceneOffset) ∧
      ((navigateRing env s dir).ok = true →
        (navigateRing env s dir).writes =
          Eff.setSessionOffset no s.sceneOffset ::
            (match jsIdx env.visibleTracks no with
             | none => []
             | some t => [Eff.setSelectedTrack t.id]))) ∧
    (s.trackOffset = 0 → dir = Dir.left →
      navigateRing env s dir =
        { st := { s with allTracks := env.visibleTracks }, writes := [],
          msgs := [], ok := true }) := by
  have hnav : navigateRing env s dir =
      (if max 0 (min (s.trackOffset + navDelta dir)
          (max 0 ((env.visibleTracks.length : Int) - s.ringWidth))) = s.trackOffset
       then { st := { s with allTracks := env.visibleTracks }, writes := [],
              msgs := [], ok := true }
       else
         if (setOffset env { s with allTracks := env.visibleTracks }
             (max 0 (min (s.trackOffset + navDelta dir)
               (max 0 ((env.visibleTracks.length : Int) - s.ringWidth))))
             s.sceneOffset).ok
         then { setOffset env { s with allTracks := env.visibleTracks }
                  (max 0 (min (s.trackOffset + navDelta dir)
                    (max 0 ((env.visibleTracks.length : Int) - s.ringWidth))))
                  s.sceneOffset with
                writes := (setOffset env { s with allTracks := env.visibleTracks }
                  (max 0 (min (s.trackOffset + navDelta dir)
                    (max 0 ((env.visibleTracks.length : Int) - s.ringWidth))))
                  s.sceneOffset).writes ++
                  selectTrackInRing (setOffset env
                    { s with allTracks := env.visibleTracks }
                    (max 0 (min (s.trackOffset + navDelta dir)
                      (max 0 ((env.visibleTracks.length : Int) - s.ringWidth))))
                    s.sceneOffset).st 0 }
         else setOffset env { s with allTracks := env.visibleTracks }
           (max 0 (min (s.trackOffset + navDelta dir)
             (max 0 ((env.visibleTracks.length : Int) - s.ringWidth))))
           s.sceneOffset) := by
    cases dir <;> rfl
  have hfields := setOffset_fields env { s with allTracks := env.visibleTracks }
    (max 0 (min (s.trackOffset + navDelta dir)
      (max 0 ((env.visibleTracks.length : Int) - s.ringWidth)))) s.sceneOffset
  have hnoop : max 0 (min (s.trackOffset + navDelta dir)
      (max 0 ((env.visibleTracks.length : Int) - s.ringWidth))) = s.trackOffset →
      navigateRing env s dir =
        { st := { s with allTracks := env.visibleTracks }, writes := [],
          msgs := [], ok := true } := by
    intro h
    rw [hnav, if_pos h]
  refine ⟨?_, hnoop, ?_, ?_⟩
  · -- the visible-track list is refreshed in every branch
    rw [hnav]
    by_cases h : max 0 (min (s.trackOffset + navDelta dir)
        (max 0 ((env.visibleTracks.length : Int) - s.ringWidth))) = s.trackOffset
    · rw [if_pos h]
    · rw [if_neg h]
      split
      · exact hfields.2.2.1
      · exact hfields.2.2.1
  · -- change branch: session-offset write, then select ring index 0
    intro no hno hne
    subst hno
    rw [hnav, if_neg hne]
    refine ⟨?_, ?_, ?_⟩
    · split
      · exact hfields.1
      · exact hfields.1
    · split
      · rw [hfields.2.2.2.2]
        rfl
      · rw [hfields.2.2.2.2]
        rfl
    · intro hok
      by_cases hro : (setOffset env { s with allTracks := env.visibleTracks }
          (max 0 (min (s.trackOffset + navDelta dir)
            (max 0 ((env.visibleTracks.length : Int) - s.ringWidth))))
          s.sceneOffset).ok = true
      · rw [if_pos hro, hfields.2.2.2.2]
        show _ :: _ = _
        congr 1
        show selectTrackInRing _ 0 = _
        unfold selectTrackInRing getTrackAtRingIndex
        rw [hfields.1, hfields.2.2.1]
        simp
      · rw [if_neg hro] at hok
        exact absurd hok hro
  · -- left at offset 0 is the no-op
    intro h0 hd
    subst hd
    apply hnoop
    rw [h0]
    have hmin : min ((0 : Int) + navDelta Dir.left)
        (max 0 ((env.visibleTracks.length : Int) - s.ringWidth)) = -1 := by
      apply min_eq_left
      show (0 : Int) + -1 <= _
      have : (0 : Int) <= max 0 ((env.visibleTracks.length : Int) - s.ringWidth) :=
        le_max_left _ _
      omega
    rw [hmin]
    decide

/-- C6 witness: a concrete rightward navigation from offset 0 over three
tracks moves to offset 1 and selects the track at the new ring index 0. -/
theorem navigate_ring_spec_witness :
    (navigateRing envPlain rmEmpty Dir.right).writes =
      Eff.setSessionOffset 1 rmEmpty.sceneOffset ::
        (match jsIdx envPlain.visibleTracks 1 with
         | none => []
         | some t => [Eff.setSelectedTrack t.id]) := by
  have h := (navigate_ring_spec envPlain rmEmpty Dir.right).2.2.1 1
    (by decide) (by decide)
  exact h.2.2 rfl

/-- C7 counterexample: ring index 4 with window width 2 does not address a
track inside the ring, yet `selectTrackInRing(4)` still issues a
`selected_track` write for `allTracks[trackOffset + 4]`. -/
theorem select_track_outside_window_cex :
    ¬ "e" ∈ rmRing.currentRingTrackIds ∧
    getTrackAtRingIndex rmRing 4 = some trackE ∧
    selectTrackInRing rmRing 4 = [Eff.setSelectedTrack "e"] :=
  ⟨by decide, rfl, rfl⟩

/-- C7 (amended): a ring index outside `allTracks` makes every
ring-addressed operation (including `selectTrackInRing`) a silent no-op;
a ring index addressing a track without cached state/mixer entries makes
the six mutating operations no-ops but `selectTrackInRing` still writes
`selected_track`; an active property whose `send:` suffix does not parse
causes no write in `setActivePropertyValue`, `adjustActivePropertyValue`
or `resetActivePropertyValue`. -/
theorem malformed_command_noop (s : RM) (ri si : Int) (v δ step : ℚ) :
    (getTrackAtRingIndex s ri = none →
      toggleMute s ri = [] ∧ toggleSolo s ri = [] ∧ toggleArm s ri = [] ∧
      setVolume s ri v = [] ∧ setPanning s ri v = [] ∧ setSend s ri si v = [] ∧
      selectTrackInRing s ri = []) ∧
    (∀ t, getTrackAtRingIndex s ri = some t →
      mget s.trackStates t.id = none → mget s.mixerCache t.id = none →
      toggleMute s ri = [] ∧ toggleSolo s ri = [] ∧ toggleArm s ri = [] ∧
      setVolume s ri v = [] ∧ setPanning s ri v = [] ∧ setSend s ri si v = [] ∧
      selectTrackInRing s ri = [Eff.setSelectedTrack t.id]) ∧
    (strStartsWith s.activeProperty "send:" = true →
      parseIntJS (strDrop s.activeProperty 5) = none →
      setActivePropertyValue s ri v = [] ∧
      adjustActivePropertyValue s ri δ step = [] ∧
      resetActivePropertyValue s ri = []) := by
  refine ⟨?_, ?_, ?_⟩
  · intro h
    exact ⟨by simp [toggleMute, h], by simp [toggleSolo, h], by simp [toggleArm, h],
      by simp [setVolume, h], by simp [setPanning, h], by simp [setSend, h],
      by simp [selectTrackInRing, h]⟩
  · intro t ht hst hmc
    exact ⟨by simp [toggleMute, ht, hst], by simp [toggleSolo, ht, hst],
      by simp [toggleArm, ht, hst], by simp [setVolume, ht, hst, hmc],
      by simp [setPanning, ht, hst, hmc], by simp [setSend, ht, hmc],
      by simp [selectTrackInRing, ht]⟩
  · intro hsw hp
    have h1 : ¬ s.activeProperty = "selected_parameter" := by
      intro he
      rw [he] at hsw
      exact absurd hsw (by decide)
    have h2 : ¬ s.activeProperty = "volume" := by
      intro he
      rw [he] at hsw
      exact absurd hsw (by decide)
    have h3 : ¬ s.activeProperty = "panning" := by
      intro he
      rw [he] at hsw
      exact absurd hsw (by decide)
    refine ⟨?_, ?_, ?_⟩
    · simp [setActivePropertyValue, h1, h2, h3, hsw, hp]
    · cases h : getTrackAtRingIndex s ri with
      | none => simp [adjustActivePropertyValue, h1, h]
      | some t =>
        cases h4 : mget s.trackStates t.id with
        | none => simp [adjustActivePropertyValue, h1, h, h4]
        | some st => simp [adjustActivePropertyValue, h1, h2, h3, h, h4, hsw, hp]
    · simp [resetActivePropertyValue, h1, h2, h3, hsw, hp]

/-- C7 witness: concrete no-ops — an out-of-range ring index, and an
unparseable `send:x` active property. -/
theorem malformed_command_noop_witness :
    toggleMute rmRing 10 = [] ∧ setActivePropertyValue rmSendBad 0 100 = [] := by
  have h1 := malformed_command_noop rmRing 10 0 0 0 0
  have h2 := malformed_command_noop rmSendBad 0 0 100 0 0
  exact ⟨(h1.1 rfl).1, (h2.2.2 (by decide) (by decide)).1⟩

/-- C8: `adjustActivePropertyValue` reads the cached value from
`trackStates` (or the cached selected-parameter value), applies
`delta * stepSize` (doubled for panning; scaled by `max − min` for the
selected parameter), clamps to the property's native range
(`[0,1]`, `[−1,1]`, `[min,max]`), and writes the result through the cached
handle. -/
theorem adjust_active_property_mapping (s : RM) (ri : Int) (δ step : ℚ)
    (t : TrackData) (st : TrackState) (mc : MixerDeviceCache)
    (pv pp psend : ParamRef) (pd : ParamData)
    (ht : getTrackAtRingIndex s ri = some t)
    (hst : mget s.trackStates t.id = some st)
    (hmc : mget s.mixerCache t.id = some mc)
    (hmidi : st.isMidi = false)
    (hvol : mc.volume = some pv)
    (hpan : mc.panning = some pp)
    (hsend : jsIdx mc.sends 2 = some psend)
    (hslen : (2 : Int) < (st.sends.length : Int))
    (hpd : s.selectedParam = some pd)
    (hsw : s.selectedParamSwitching = false)
    (hrange : ¬ s.selectedParamMax - s.selectedParamMin = 0) :
    adjustActivePropertyValue { s with activeProperty := "volume" } ri δ step =
      [Eff.setParamValue pv (max 0 (min 1 (st.volume + δ * step)))] ∧
    adjustActivePropertyValue { s with activeProperty := "panning" } ri δ step =
      [Eff.setParamValue pp (max (-1) (min 1 (st.panning + δ * step * 2)))] ∧
    adjustActivePropertyValue { s with activeProperty := "send:2" } ri δ step =
      [Eff.setParamValue psend (max 0 (min 1 (jsIdxQ st.sends 2 + δ * step)))] ∧
    adjustActivePropertyValue { s with activeProperty := "selected_parameter" }
        ri δ step =
      [Eff.setParamValue (ParamRef.selParam pd.pid)
        (max s.selectedParamMin (min s.selectedParamMax
          (s.selectedParamValue + δ * step *
            (s.selectedParamMax - s.selectedParamMin))))] := by
  refine ⟨?_, ?_, ?_, ?_⟩
  · have ht' : getTrackAtRingIndex { s with activeProperty := "volume" } ri
        = some t := ht
    have hst' : mget ({ s with activeProperty := "volume" } : RM).trackStates t.id
        = some st := hst
    have hmc' : mget ({ s with activeProperty := "volume" } : RM).mixerCache t.id
        = some mc := hmc
    simp [adjustActivePropertyValue, setVolume, ht', hst', hmc', hmidi, hvol]
  · have ht' : getTrackAtRingIndex { s with activeProperty := "panning" } ri
        = some t := ht
    have hst' : mget ({ s with activeProperty := "panning" } : RM).trackStates t.id
        = some st := hst
    have hmc' : mget ({ s with activeProperty := "panning" } : RM).mixerCache t.id
        = some mc := hmc
    simp [adjustActivePropertyValue, setPanning, ht', hst', hmc', hmidi, hpan]
  · have ht' : getTrackAtRingIndex { s with activeProperty := "send:2" } ri
        = some t := ht
    have hst' : mget ({ s with activeProperty := "send:2" } : RM).trackStates t.id
        = some st := hst
    have hmc' : mget ({ s with activeProperty := "send:2" } : RM).mixerCache t.id
        = some mc := hmc
    have hpre : strStartsWith "send:2" "send:" = true := by decide
    have hparse : parseIntJS (strDrop "send:2" 5) = some 2 := by decide
    simp [adjustActivePropertyValue, setSend, ht', hst', hmc', hpre, hparse,
      hslen, hsend]
  · have hpd' : ({ s with activeProperty := "selected_parameter" } : RM).selectedParam
        = some pd := hpd
    simp [adjustActivePropertyValue, adjustSelectedParameter, hpd', hpd, hsw,
      hrange]

/-- C8 witness: with cached `sends[2] = 0.25`, adjusting by `+4` at step
`1/127` writes `clamp(0.25 + 4/127, 0, 1) = 143/508` to send 2. -/
theorem adjust_active_property_mapping_witness :
    adjustActivePropertyValue { rmAdjust with activeProperty := "send:2" } 0 4
        (1 / 127) =
      [Eff.setParamValue (ParamRef.send "a" 2) (143 / 508)] := by
  have h := adjust_active_property_mapping rmAdjust 0 4 (1 / 127) trackA stA8 mcA8
    (ParamRef.volume "a") (ParamRef.panning "a") (ParamRef.send "a" 2) paramP
    rfl rfl rfl rfl rfl rfl rfl (by decide) rfl rfl (by norm_num [rmAdjust])
  rw [h.2.2.1]
  have hv : jsIdxQ stA8.sends 2 = 1 / 4 := rfl
  rw [hv]
  norm_num

lemma bind_map {α β γ : Type} (g : α → β) (f : β → List γ) :
    ∀ l : List α, (l.map g).flatMap f = l.flatMap (fun a => f (g a)) := by
  intro l
  induction l with
  | nil => rfl
  | cons a rest ih => simp [ih]

lemma range_flatMap_shift {β : Type} (g : Nat → List β) (n j : Nat) :
    (List.range n).flatMap (fun k => g (j + Nat.succ k)) =
      (List.range n).flatMap (fun k => g ((j + 1) + k)) := by
  have h : (fun k => g (j + Nat.succ k)) = (fun k => g ((j + 1) + k)) := by
    funext k
    congr 1
    omega
  rw [h]

set_option maxRecDepth 4000 in
lemma fullSyncGo_walk (s : RM) (sts : Nat → TrackState) :
    ∀ (l : List String) (j : Nat),
      (∀ k (hk : k < l.length),
        mget s.trackStates (l.get ⟨k, hk⟩) = some (sts (j + k))) →
      (∀ k (hk : k < l.length),
        mget s.ringIndexByTrackId (l.get ⟨k, hk⟩) = some (((j + k : Nat)) : Int)) →
      fullSyncGo s l = (List.range l.length).flatMap
        (fun k => trackBlock (((j + k : Nat)) : Int) (sts (j + k))) := by
  intro l
  induction l with
  | nil => intro j _ _; rfl
  | cons id rest ih =>
    intro j hst hidx
    have h0 : mget s.trackStates id = some (sts j) := by
      have h := hst 0 (by simp)
      simpa using h
    have hI : mget s.ringIndexByTrackId id = some ((j : Nat) : Int) := by
      have h := hidx 0 (by simp)
      simpa using h
    have hst' : ∀ k (hk : k < rest.length),
        mget s.trackStates (rest.get ⟨k, hk⟩) = some (sts ((j + 1) + k)) := by
      intro k hk
      have h := hst (k + 1) (Nat.succ_lt_succ hk)
      have harr : j + (k + 1) = (j + 1) + k := by omega
      simpa [harr] using h
    have hidx' : ∀ k (hk : k < rest.length),
        mget s.ringIndexByTrackId (rest.get ⟨k, hk⟩) =
          some ((((j + 1) + k : Nat)) : Int) := by
      intro k hk
      have h := hidx (k + 1) (Nat.succ_lt_succ hk)
      have harr : j + (k + 1) = (j + 1) + k := by omega
      simpa [harr] using h
    have hrest := ih (j + 1) hst' hidx'
    show (match mget s.trackStates id with
          | none => []
          | some st =>
            [Msg.rtMute ((mget s.ringIndexByTrackId id).getD 0) st.mute,
             Msg.rtSolo ((mget s.ringIndexByTrackId id).getD 0) st.solo,
             Msg.rtArm ((mget s.ringIndexByTrackId id).getD 0) st.arm]
            ++ _ ++ _ ++ _) ++ fullSyncGo s rest = _
    rw [h0, hI, hrest]
    simp only [List.length_cons]
    rw [List.range_succ_eq_map, List.flatMap_cons, bind_map Nat.succ,
      range_flatMap_shift (fun m => trackBlock (m : Int) (sts m)) rest.length j]
    congr 1

/-- C9: `sendFullSync` walks `currentRingTrackIds` in order: for the
resident at position `k` with cached state `sts k` (ring index map at `k`),
it emits `RT_MUTE`, `RT_SOLO`, `RT_ARM`, then `RT_VOL` and `RT_PAN` only
for non-MIDI tracks (`nv = v` and `nv = (v+1)/2`), then `RT_INFO`, then
one `RT_SEND` per cached send. -/
theorem send_full_sync_walk (s : RM) (sts : Nat → TrackState)
    (hst : ∀ k (hk : k < s.currentRingTrackIds.length),
      mget s.trackStates (s.currentRingTrackIds.get ⟨k, hk⟩) = some (sts k))
    (hidx : ∀ k (hk : k < s.currentRingTrackIds.length),
      mget s.ringIndexByTrackId (s.currentRingTrackIds.get ⟨k, hk⟩)
        = some (k : Int)) :
    sendFullSync s = (List.range s.currentRingTrackIds.length).flatMap
      (fun k => trackBlock (k : Int) (sts k)) := by
  have h := fullSyncGo_walk s sts s.currentRingTrackIds 0
    (by simpa using hst) (by simpa using hidx)
  simpa using h

/-- C9 witness: the walk over a concrete two-resident ring (one audio, one
MIDI track). -/
theorem send_full_sync_walk_witness :
    sendFullSync rmFullSync = (List.range rmFullSync.currentRingTrackIds.length).flatMap
      (fun k => trackBlock (k : Int) (stsFullSync k)) :=
  send_full_sync_walk rmFullSync stsFullSync (by decide) (by decide)

lemma trackBlock_no_param (i : Int) (st : TrackState) :
    ∀ m ∈ trackBlock i st, isParam m = false := by
  intro m hm
  unfold trackBlock at hm
  rcases List.mem_append.mp hm with h1 | h1
  · rcases List.mem_append.mp h1 with h2 | h2
    · rcases List.mem_append.mp h2 with h3 | h3
      · simp only [List.mem_cons, List.mem_singleton, List.not_mem_nil,
          or_false] at h3
        rcases h3 with rfl | rfl | rfl <;> rfl
      · by_cases hmidi : st.isMidi = true
        · rw [if_pos hmidi] at h3
          cases h3
        · rw [if_neg hmidi] at h3
          simp only [List.mem_cons, List.mem_singleton, List.not_mem_nil,
            or_false] at h3
          rcases h3 with rfl | rfl <;> rfl
    · rw [List.mem_singleton.mp h2]
      rfl
  · rcases List.mem_map.mp h1 with ⟨si, _, heq⟩
    subst heq
    rfl

lemma fullSyncGo_no_param (s : RM) :
    ∀ (l : List String) (m : Msg), m ∈ fullSyncGo s l → isParam m = false := by
  intro l
  induction l with
  | nil => intro m hm; cases hm
  | cons id rest ih =>
    intro m hm
    have hsplit : m ∈ (match mget s.trackStates id with
        | none => ([] : List Msg)
        | some st => trackBlock ((mget s.ringIndexByTrackId id).getD 0) st) ++
        fullSyncGo s rest := hm
    rcases List.mem_append.mp hsplit with h | h
    · cases hmg : mget s.trackStates id with
      | none => rw [hmg] at h; cases h
      | some st =>
        rw [hmg] at h
        exact trackBlock_no_param _ _ m h
    · exact ih m h

lemma sync_no_param (env : Env) (s : RM) :
    ∀ m ∈ (syncRingListeners env s).2.1, isParam m = false := by
  intro m hm
  have hc := syncRingListeners_cases env s
  rcases hadd : subscribeAdded env (afterIndex s) (addedOf s) with ⟨s3, ok⟩
  rw [hadd] at hc
  cases ok
  · rw [hc] at hm
    cases hm
  · rw [hc] at hm
    exact fullSyncGo_no_param _ _ m hm

lemma requestSelBlock_no_param (env : Env) (s1 : RM) :
    ∀ m ∈ (requestSelBlock env s1).2, isParam m = false := by
  intro m hm
  unfold requestSelBlock at hm
  by_cases hg : env.selTrackGetFails
  · simp [hg] at hm
  · cases ht : env.selectedTrack with
    | none => simp [hg, ht] at hm
    | some t =>
      simp [hg, ht] at hm
      rw [hm]
      rfl

lemma requestSelBlock_param_fields (env : Env) (s1 : RM) :
    (requestSelBlock env s1).1.selectedParam = s1.selectedParam ∧
    (requestSelBlock env s1).1.selectedParamName = s1.selectedParamName ∧
    (requestSelBlock env s1).1.selectedParamValue = s1.selectedParamValue ∧
    (requestSelBlock env s1).1.selectedParamMin = s1.selectedParamMin ∧
    (requestSelBlock env s1).1.selectedParamMax = s1.selectedParamMax := by
  unfold requestSelBlock
  by_cases hg : env.selTrackGetFails
  · simp [hg]
  · cases ht : env.selectedTrack with
    | none => simp [hg, ht]
    | some t => simp [hg, ht]

/-- C10: every `RT_PARAM` emission guards its division — when
`selectedParamMax − selectedParamMin = 0` the emitted `nv` is the number 0
(`some 0`, never the NaN `none`): in the parameter value listener, the
initial push after a parameter switch, `sendActivePropertyState`, and
everywhere in `requestFullState`. -/
theorem rt_param_nv_guarded (env : Env) (s : RM) (v : ℚ) (p : ParamData)
    (hrange : s.selectedParamMax - s.selectedParamMin = 0)
    (hprange : p.pmax - p.pmin = 0)
    (hfetch : env.selParamFetchFails = false) :
    (paramValueListener s v).2 =
      [Msg.rtParam s.selectedParamName v (some 0) s.selectedParamMin
        s.selectedParamMax] ∧
    (onSelectedParameterChanged env s (some p)).2 =
      [Msg.rtParam p.name p.value (some 0) p.pmin p.pmax] ∧
    (s.activeProperty = "selected_parameter" → s.selectedParam.isSome →
      sendActivePropertyState s =
        [Msg.rtParam s.selectedParamName s.selectedParamValue (some 0)
          s.selectedParamMin s.selectedParamMax]) ∧
    (∀ m, m ∈ (requestFullState env s).2.1 → isParam m = true →
      paramNv m = some 0) := by
  refine ⟨?_, ?_, ?_, ?_⟩
  · simp [paramValueListener, hrange]
  · simp [onSelectedParameterChanged, hfetch, hprange]
  · intro ha hsome
    cases hpd : s.selectedParam with
    | none => rw [hpd] at hsome; cases hsome
    | some pd => simp [sendActivePropertyState, ha, hpd, hrange]
  · intro m hm hp
    rcases hsync : syncRingListeners env { s with allTracks := env.visibleTracks }
      with ⟨s1, syncMsgs, ok⟩
    have hreq : requestFullState env s =
        match syncRingListeners env { s with allTracks := env.visibleTracks } with
        | (s1, syncMsgs, false) => (s1, syncMsgs, false)
        | (s1, syncMsgs, true) =>
          ((requestSelBlock env s1).1,
           syncMsgs ++ sendFullSync s1 ++ (requestSelBlock env s1).2 ++
             [Msg.rtPlayingClip (requestSelBlock env s1).1.playingClipName
               (requestSelBlock env s1).1.playingClipColor] ++
             [Msg.rtTransport (requestSelBlock env s1).1.isPlaying
               (requestSelBlock env s1).1.isRecording] ++
             requestParamMsg (requestSelBlock env s1).1,
           true) := rfl
    rw [hsync] at hreq
    have hs1 : s1 = (syncRingListeners env
        { s with allTracks := env.visibleTracks }).1 := by rw [hsync]
    have hsm : syncMsgs = (syncRingListeners env
        { s with allTracks := env.visibleTracks }).2.1 := by rw [hsync]
    cases ok with
    | false =>
      rw [hreq] at hm
      have hnp := sync_no_param env { s with allTracks := env.visibleTracks } m
        (by rw [← hsm] at *; exact hm)
      rw [hnp] at hp
      cases hp
    | true =>
      rw [hreq] at hm
      rcases List.mem_append.mp hm with hm1 | hm1
      rcases List.mem_append.mp hm1 with hm2 | hm2
      rcases List.mem_append.mp hm2 with hm3 | hm3
      rcases List.mem_append.mp hm3 with hm4 | hm4
      rcases List.mem_append.mp hm4 with hm5 | hm5
      · -- sync messages carry no RT_PARAM
        have hnp := sync_no_param env { s with allTracks := env.visibleTracks } m
          (by rw [← hsm]; exact hm5)
        rw [hnp] at hp
        cases hp
      · -- full-sync messages carry no RT_PARAM
        have hnp := fullSyncGo_no_param s1 s1.currentRingTrackIds m hm5
        rw [hnp] at hp
        cases hp
      · -- RT_SELECTED is not RT_PARAM
        have hnp := requestSelBlock_no_param env s1 m hm4
        rw [hnp] at hp
        cases hp
      · -- RT_PLAYING_CLIP is not RT_PARAM
        rcases List.mem_singleton.mp hm3 ▸ hp with h
        rw [List.mem_singleton.mp hm3] at hp
        cases hp
      · -- RT_TRANSPORT is not RT_PARAM
        rw [List.mem_singleton.mp hm2] at hp
        cases hp
      · -- the selected-parameter push: the guard yields nv = some 0
        have hsp := sync_preserves env { s with allTracks := env.visibleTracks }
        have hsel := requestSelBlock_param_fields env s1
        have hmax : (requestSelBlock env s1).1.selectedParamMax = s.selectedParamMax := by
          rw [hsel.2.2.2.2, hs1, hsp.2.2.2.2.2.2.2.2.1]
        have hmin : (requestSelBlock env s1).1.selectedParamMin = s.selectedParamMin := by
          rw [hsel.2.2.2.1, hs1, hsp.2.2.2.2.2.2.2.1]
        unfold requestParamMsg at hm1
        cases hpd : (requestSelBlock env s1).1.selectedParam with
        | none =>
          rw [hpd] at hm1
          rw [List.mem_singleton.mp hm1]
          rfl
        | some pd =>
          rw [hpd] at hm1
          rw [List.mem_singleton.mp hm1]
          show (if _ ≠ 0 then _ else some 0) = some 0
          rw [if_neg]
          intro hne
          apply hne
          rw [hmax, hmin, hrange]

/-- C10 witness: the four emission sites at a concrete zero-range
selected parameter. -/
theorem rt_param_nv_guarded_witness :
    (paramValueListener rmZeroRange 5).2 =
      [Msg.rtParam "P" 5 (some 0) 5 5] ∧
    (onSelectedParameterChanged envPlain rmZeroRange (some paramQ)).2 =
      [Msg.rtParam "Q" 2 (some 0) 2 2] ∧
    sendActivePropertyState rmZeroRange =
      [Msg.rtParam "P" 5 (some 0) 5 5] := by
  have h := rt_param_nv_guarded envPlain rmZeroRange 5 paramQ
    (by show (5 : ℚ) - 5 = 0; norm_num) (by show (2 : ℚ) - 2 = 0; norm_num) rfl
  exact ⟨h.1, h.2.1, h.2.2.1 rfl rfl⟩

/-- C3: after a completed `syncRingListeners` whose window ids are
distinct, `ringIndexByTrackId` maps the resident at every position `k` of
`currentRingTrackIds` to `k`, and every id that was resident before but
left the window has been deleted from the map. -/
theorem sync_ring_index_invariant (env : Env) (s : RM)
    (hok : (syncRingListeners env s).2.2 = true)
    (hnd : (newIdsOf s).Nodup) :
    (∀ k (hk : k < (syncRingListeners env s).1.currentRingTrackIds.length),
      mget (syncRingListeners env s).1.ringIndexByTrackId
        ((syncRingListeners env s).1.currentRingTrackIds.get ⟨k, hk⟩)
        = some (k : Int)) ∧
    (∀ id, id ∈ s.currentRingTrackIds →
      ¬ id ∈ (syncRingListeners env s).1.currentRingTrackIds →
      mget (syncRingListeners env s).1.ringIndexByTrackId id = none) := by
  have hc := syncRingListeners_cases env s
  obtain ⟨ks3, ts3, mc3, h3⟩ := subscribeAdded_shape env (addedOf s) (afterIndex s)
  rcases hadd : subscribeAdded env (afterIndex s) (addedOf s) with ⟨s3, ok⟩
  rw [hadd] at hc h3
  cases ok with
  | false =>
    rw [hc] at hok
    cases hok
  | true =>
    have h3' : s3 = { afterIndex s with
        ringSubKeys := ks3, trackStates := ts3, mixerCache := mc3 } := h3
    have hmap : s3.ringIndexByTrackId = (afterIndex s).ringIndexByTrackId := by
      rw [h3']
    rw [hc]
    constructor
    · intro k hk
      show mget s3.ringIndexByTrackId ((newIdsOf s).get ⟨k, hk⟩) = some (k : Int)
      rw [hmap]
      show mget (setIdxLoop (afterRemove s).ringIndexByTrackId (newIdsOf s) 0)
        ((newIdsOf s).get ⟨k, hk⟩) = some (k : Int)
      rw [setIdxLoop_get (newIdsOf s) hnd (afterRemove s).ringIndexByTrackId 0 k hk]
      rw [zero_add]
    · intro id hid hnot
      have hnotnew : ¬ id ∈ newIdsOf s := hnot
      show mget s3.ringIndexByTrackId id = none
      rw [hmap]
      show mget (setIdxLoop (afterRemove s).ringIndexByTrackId (newIdsOf s) 0)
        id = none
      rw [setIdxLoop_notmem (newIdsOf s) id hnotnew]
      show mget (removeLeft s (removedOf s)).ringIndexByTrackId id = none
      rw [removeLeft_map_lookup (removedOf s) s id]
      have hidrem : id ∈ removedOf s := by
        unfold removedOf
        rw [List.mem_filter]
        exact ⟨hid, by simpa using hnotnew⟩
      rw [if_pos hidrem]

/-- C3 witness: shifting the window from `[a, b]` to `[b, c]` leaves the
map with `b ↦ 0` and deletes `a`. -/
theorem sync_ring_index_invariant_witness :
    mget (syncRingListeners envPlain rmShift).1.ringIndexByTrackId "b"
      = some 0 ∧
    mget (syncRingListeners envPlain rmShift).1.ringIndexByTrackId "a"
      = none := by
  have h := sync_ring_index_invariant envPlain rmShift rfl (by decide)
  constructor
  · have hk : (0 : Nat) <
        (syncRingListeners envPlain rmShift).1.currentRingTrackIds.length := by
      show (0 : Nat) < 2
      norm_num
    have h0 := h.1 0 hk
    have hget : (syncRingListeners envPlain rmShift).1.currentRingTrackIds.get
        ⟨0, hk⟩ = "b" := rfl
    rw [hget] at h0
    exact h0
  · exact h.2 "a" (by decide) (by decide)

end AbletonRing
